import Mathlib

/-! # Verification of the scrapii content-analysis and risk-scoring engine

Shallow embedding, in Lean 4, of the analysis pipeline of the scrapii
repository: the robots.txt policy gate, the technology detector, the
vulnerability matcher, the security-header / SSL analyzer
(`src/index.tsx`) and the realistic security scorer
(`src/src/utils/security_integrator.ts`, `src/src/utils/baseline_scoring.ts`).

Strings are modelled as `List Char`; JavaScript string searches
(`includes`, regex `test`/`match`) are modelled by executable functions on
character lists.  JavaScript numbers are modelled by `ℚ`/`ℤ` with
`Math.round`/`Math.min`/`Math.max` made explicit; all quantities the
claims touch are exact in this model.  `Math.random()` is modelled by an
explicit sample argument.
-/

namespace Scrapii

/-! ## String model -/

/-- ASCII lowercase conversion, modelling JavaScript `toLowerCase` on the
ASCII range (every literal the analyses compare against is ASCII). -/
def lowerChar (c : Char) : Char :=
  if 'A' ≤ c ∧ c ≤ 'Z' then Char.ofNat (c.toNat + 32) else c

/-- Lowercase a character list (JS `String.prototype.toLowerCase`). -/
def lowerL (s : List Char) : List Char := s.map lowerChar

/-- `startsWithL n h` : `n` is a prefix of `h` (JS `startsWith`). -/
def startsWithL : List Char → List Char → Bool
  | [], _ => true
  | _ :: _, [] => false
  | a :: n, b :: h => a == b && startsWithL n h

/-- `occursIn n h` : `n` occurs as a contiguous substring of `h`,
modelling JavaScript `String.prototype.includes(n)`. -/
def occursIn (n : List Char) : List Char → Bool
  | [] => startsWithL n []
  | c :: h => startsWithL n (c :: h) || occursIn n h

/-- Characters of a string literal. -/
def str (s : String) : List Char := s.toList

/-! ## Further string utilities -/

/-- `stripPrefixL n s` removes the prefix `n` from `s`, if present. -/
def stripPrefixL : List Char → List Char → Option (List Char)
  | [], s => some s
  | _ :: _, [] => none
  | a :: n, b :: s => if a = b then stripPrefixL n s else none

/-- JavaScript regex `\s` on the ASCII range (space, tab, newline,
carriage return, vertical tab, form feed).  The analysed literals use
only these. -/
def isWsJs (c : Char) : Bool :=
  c == ' ' || c == '\t' || c == '\n' || c == '\x0d' || c == '\x0b' || c == '\x0c'

/-- Greedy `\s*` : drop leading whitespace. -/
def dropWs (s : List Char) : List Char := s.dropWhile isWsJs

/-! ## Regex scanning model

Each regex of the vulnerability matcher is translated into a matcher
`List Char → Bool` that decides whether the regex matches starting at the
head of the list; `anySuffix` then scans every position, modelling
JavaScript regex search.  All matchers run on lowercased text, modelling
the `i` flag.  None of the translated regexes needs backtracking beyond
the two optional quotes of the `location` pattern: every starred class is
disjoint from the character that follows it. -/

def anySuffix (p : List Char → Bool) : List Char → Bool
  | [] => p []
  | c :: s => p (c :: s) || anySuffix p s

/-- Matcher combinator for a literal. -/
def pLit (w : String) (k : List Char → Bool) (s : List Char) : Bool :=
  match stripPrefixL (str w) s with
  | some r => k r
  | none => false

/-- Matcher combinator for greedy `\s*` (whitespace never overlaps what
the continuations here expect next, so greediness is exact). -/
def pWs (k : List Char → Bool) (s : List Char) : Bool := k (dropWs s)

/-- Matcher combinator for a single character. -/
def pChar (c : Char) (k : List Char → Bool) : List Char → Bool
  | x :: r => x == c && k r
  | [] => false

/-- Matcher for `[^)]*\)` : skip to the first `)` and continue after it. -/
def pUntilRParen (k : List Char → Bool) (s : List Char) : Bool :=
  match s.dropWhile (· != ')') with
  | ')' :: r => k r
  | _ => false

/-- Matcher for `['"]?` (greedy optional, with backtracking). -/
def pQuoteOpt (k : List Char → Bool) (s : List Char) : Bool :=
  (match s with
   | c :: r => (c == '\'' || c == '"') && k r
   | [] => false) || k s

/-- End of pattern: accept. -/
def pEnd : List Char → Bool := fun _ => true

/-! ### The nine `vulnerablePatterns` regexes of `detectVulnerableTechnologies`
(`src/index.tsx`), in source order. -/

/-- `/eval\s*\(/gi` -/
def matchEval : List Char → Bool := pLit "eval" (pWs (pChar '(' pEnd))

/-- `/document\.write\s*\(/gi` -/
def matchDocWrite : List Char → Bool := pLit "document.write" (pWs (pChar '(' pEnd))

/-- `/innerHTML\s*=/gi` (lowercased) -/
def matchInnerHtml : List Char → Bool := pLit "innerhtml" (pWs (pChar '=' pEnd))

/-- Variable-name keywords of the `.html(...)` pattern (lowercased). -/
def htmlCallKeywords : List String :=
  ["atob", "base64", "nombre", "variantlisthtml", "usercontent", "datainput",
   "htmlcontent"]

/-- `/\.html\s*\(\s*[^)]*(?:atob|base64|nombre|variantListHtml|userContent|dataInput|htmlContent)[^)]*\)/gi`.
The `\s*` after `(` is subsumed by `[^)]*` (whitespace is not `)`), so the
match condition after `(` is: the run up to the first `)` contains one of
the keywords, and a `)` follows the run. -/
def matchHtmlCall : List Char → Bool :=
  pLit ".html" (pWs (pChar '(' (fun s =>
    let run := s.takeWhile (· != ')')
    (htmlCallKeywords.any fun k => occursIn (str k) run) &&
      pUntilRParen pEnd s)))

/-- Keywords of the jQuery `.html` pattern (lowercased). -/
def jqueryKeywords : List String := ["atob", "base64", "nombre", "variantlisthtml"]

/-- `/\$\([^)]*\)\.html\s*\(\s*(?:[^)]*atob|[^)]*base64|[^)]*nombre|[^)]*variantListHtml)/gi`.
After the second `(` the alternation `[^)]*kw` matches iff one of the
keywords occurs in the run up to the first `)` (here no closing `)` is
required); the `\s*` is again subsumed by `[^)]*`. -/
def matchJqueryHtml : List Char → Bool :=
  pChar '$' (pChar '(' (pUntilRParen (pLit ".html" (pWs (pChar '(' (fun s =>
    let run := s.takeWhile (· != ')')
    jqueryKeywords.any fun k => occursIn (str k) run))))))

/-- `/setTimeout\s*\(\s*['"]/gi` (lowercased) -/
def matchSetTimeout : List Char → Bool :=
  pLit "settimeout" (pWs (pChar '(' (pWs (fun s =>
    headIsQuote s))))
where
  headIsQuote : List Char → Bool
    | c :: _ => c == '\'' || c == '"'
    | [] => false

/-- `/location\s*=\s*['"]?['"]?\s*\+/gi` -/
def matchLocation : List Char → Bool :=
  pLit "location" (pWs (pChar '=' (pWs (pQuoteOpt (pQuoteOpt (pWs
    (pChar '+' pEnd)))))))

/-- `/console\.(log|error|warn)\s*\(/gi` -/
def matchConsole : List Char → Bool :=
  pLit "console." fun s =>
    pLit "log" tail s || pLit "error" tail s || pLit "warn" tail s
where
  tail : List Char → Bool := pWs (pChar '(' pEnd)

/-- `/debug\s*=\s*true/gi` -/
def matchDebug : List Char → Bool :=
  pLit "debug" (pWs (pChar '=' (pWs (pLit "true" pEnd))))

/-! ## Vulnerability matcher (`detectVulnerableTechnologies`, `src/index.tsx`) -/

/-- Severity levels of `VulnerableTechnology['severity']`. -/
inductive Severity where
  | critical | high | medium | low
deriving DecidableEq, Repr

/-- Output entries of `detectTechnologies` (name, extracted version,
current reference version). -/
structure Technology where
  name : String
  version : Option String := none
  currentVersion : Option String := none
deriving DecidableEq, Repr

/-- `VulnerableTechnology` entries. -/
structure VulnFinding where
  name : String
  version : String
  vulnerability : String
  severity : Severity
  lineNumbers : List Nat := []
  recommendation : Option String := none
deriving DecidableEq, Repr

/-- One entry of the `vulnerabilityDatabase` table.  No entry of the
source table populates the optional `patterns` field, so it is a list
that is empty for every entry. -/
structure DbEntry where
  name : String
  versions : List String
  vulnerability : String
  severity : Severity
  cveId : Option String := none
  patterns : List (List Char → Bool) := []

/-- The `vulnerabilityDatabase` of `detectVulnerableTechnologies`. -/
def vulnerabilityDatabase : List DbEntry :=
  [⟨"jQuery", ["1.", "2.", "3.0.", "3.1.", "3.2.", "3.3.", "3.4."],
    "jQuery XSS vulnerabilities and prototype pollution (CVE-2020-11022, CVE-2020-11023)",
    .high, some "CVE-2020-11022", []⟩,
   ⟨"React", ["15.", "16.", "17.0.", "17.1.", "17.2."],
    "XSS vulnerability via dangerouslySetInnerHTML and URL parsing (CVE-2019-7580)",
    .high, some "CVE-2019-7580", []⟩,
   ⟨"WordPress", ["4.", "5.0.", "5.1.", "5.2.", "5.3.", "5.4.", "5.5.", "5.6.", "5.7.", "5.8."],
    "WordPress XSS, SQL Injection, and RCE vulnerabilities (Multiple CVEs)",
    .critical, some "CVE-2022-39986", []⟩,
   ⟨"PHP", ["5.", "7.0.", "7.1.", "7.2.", "7.3.", "7.4."],
    "PHP multiple vulnerabilities including RCE and file inclusion (CVE-2023-3247)",
    .critical, some "CVE-2023-3247", []⟩,
   ⟨"Angular", ["1.", "2.", "4.", "5.", "6.", "7.", "8.", "9.", "10.", "11.", "12.", "13.", "14."],
    "Angular XSS vulnerability in template parsing (CVE-2020-5216)",
    .high, some "CVE-2020-5216", []⟩,
   ⟨"Vue.js", ["2.0.", "2.1.", "2.2.", "2.3.", "2.4.", "2.5.", "2.6.", "3.0.", "3.1."],
    "XSS vulnerability via v-html directive (CVE-2023-2649)",
    .high, some "CVE-2023-2649", []⟩,
   ⟨"Bootstrap", ["3.", "4.", "5.0.", "5.1."],
    "Bootstrap XSS vulnerability in tooltip/popover (CVE-2019-8331)",
    .medium, some "CVE-2019-8331", []⟩,
   ⟨"jQuery UI", ["1.10.", "1.11.", "1.12."],
    "jQuery UI XSS vulnerability in removeClass function", .high, none, []⟩,
   ⟨"Moment.js", ["2.22.", "2.23.", "2.24.", "2.25.", "2.26."],
    "Moment.js path traversal vulnerability (CVE-2022-24729)",
    .high, some "CVE-2022-24729", []⟩,
   ⟨"Lodash", ["4.17.0", "4.17.1", "4.17.2", "4.17.3", "4.17.4"],
    "Lodash prototype pollution vulnerability (CVE-2019-10744)",
    .critical, some "CVE-2019-10744", []⟩,
   ⟨"Express", ["4.0.", "4.1.", "4.2.", "4.3.", "4.4.", "4.5.", "4.6."],
    "Express framework XSS and open redirect vulnerabilities", .medium, none, []⟩]

/-- `Record` lookup: first entry with the given key. -/
def dbLookup (name : String) : Option DbEntry :=
  vulnerabilityDatabase.find? (fun e => e.name == name)

/-- One entry of the `vulnerablePatterns` table. -/
structure VulnPattern where
  matchAt : List Char → Bool
  vulnerability : String
  severity : Severity
  exploitation : String
  recommendation : String

/-- `vulnerablePatterns[0]`. -/
def evalPattern : VulnPattern :=
  ⟨matchEval, "Use of dangerous eval() function", .high,
   "Permite ejecución arbitraria de código JavaScript, facilitando RCE y XSS",
   "Evitar eval(), usar JSON.parse() para datos o funciones predefinidas"⟩

/-- `vulnerablePatterns[1]`. -/
def docWritePattern : VulnPattern :=
  ⟨matchDocWrite, "Potential XSS via document.write()", .medium,
   "Puede ejecutar código malicioso si se usan datos no sanitizados",
   "Usar textContent o createElement para manipular DOM"⟩

/-- `vulnerablePatterns[2]`. -/
def innerHtmlPattern : VulnPattern :=
  ⟨matchInnerHtml, "Potential XSS via innerHTML assignment", .medium,
   "Permite inyección de HTML/JavaScript malicioso en el DOM",
   "Usar textContent, createElement() o bibliotecas de sanitización"⟩

/-- `vulnerablePatterns[3]`. -/
def htmlCallPattern : VulnPattern :=
  ⟨matchHtmlCall, "XSS via .html() with potentially unsafe content", .high,
   "Si la variable contiene datos decodificados (base64) o input del usuario, permite inyección de código malicioso",
   "Usar .text() en lugar de .html() para contenido de texto, sanitizar datos antes de usar .html()"⟩

/-- `vulnerablePatterns[4]`. -/
def jqueryHtmlPattern : VulnPattern :=
  ⟨matchJqueryHtml, "jQuery XSS via .html() with decoded/base64 content", .high,
   "Uso de .html() con datos decodificados de base64 puede ejecutar scripts maliciosos",
   "Validar y sanitizar contenido antes de usar .html(), usar .text() para contenido de texto"⟩

/-- `vulnerablePatterns[5]`. -/
def setTimeoutPattern : VulnPattern :=
  ⟨matchSetTimeout, "Potential XSS via setTimeout with string parameter", .medium,
   "Ejecución de código desde parámetros de entrada",
   "Usar funciones en lugar de strings en setTimeout"⟩

/-- `vulnerablePatterns[6]`. -/
def locationPattern : VulnPattern :=
  ⟨matchLocation, "Potential redirect/open redirect attack", .medium,
   "Redirección a sitios maliciosos usando datos del usuario",
   "Validar URLs internamente y usar whitelists de dominios"⟩

/-- `vulnerablePatterns[7]`. -/
def consolePattern : VulnPattern :=
  ⟨matchConsole, "Console logging in production code", .low,
   "Puede exponer información sensible en navegador del usuario",
   "Remover console logs en producción o usar logging libraries"⟩

/-- `vulnerablePatterns[8]`. -/
def debugPattern : VulnPattern :=
  ⟨matchDebug, "Debug mode enabled in production", .medium,
   "Información de depuración expuesta puede ayudar a atacantes",
   "Deshabilitar debug en producción y usar configuración por entorno"⟩

/-- The `vulnerablePatterns` table, in source order. -/
def vulnerablePatterns : List VulnPattern :=
  [evalPattern, docWritePattern, innerHtmlPattern, htmlCallPattern,
   jqueryHtmlPattern, setTimeoutPattern, locationPattern, consolePattern,
   debugPattern]

/-- JavaScript `String.prototype.split('\n')`. -/
def splitLines : List Char → List (List Char)
  | [] => [[]]
  | c :: cs =>
    if c = '\n' then [] :: splitLines cs
    else
      match splitLines cs with
      | [] => [[c]]
      | l :: ls => (c :: l) :: ls

/-- Line numbers (1-based) of the lines of `html` on which the pattern
tests positive (`pattern.test(line)` with reset `lastIndex`). -/
def patternFoundLines (p : List Char → Bool) (html : List Char) : List Nat :=
  ((splitLines html).enum.filter fun il => anySuffix p (lowerL il.2)).map
    fun il => il.1 + 1

/-- The formatted `version` field of a code-pattern finding:
``Líneas: ${foundLines.slice(0, 3).join(', ')}${foundLines.length > 3 ? '...' : ''}``. -/
def lineListString (foundLines : List Nat) : String :=
  "Líneas: " ++ String.intercalate ", " ((foundLines.take 3).map toString) ++
    (if foundLines.length > 3 then "..." else "")

/-- The finding pushed for a matching code pattern. -/
def mkPatternFinding (p : VulnPattern) (html : List Char) : VulnFinding :=
  let foundLines := patternFoundLines p.matchAt html
  { name := "JavaScript Code Pattern"
    version := lineListString foundLines
    vulnerability := p.vulnerability ++ " - " ++ p.exploitation
    severity := p.severity
    lineNumbers := foundLines
    recommendation := some p.recommendation }

/-- Technology-by-version matching (first loop of
`detectVulnerableTechnologies`).  JS truthiness of `tech.version` makes
`undefined` and `""` both skip the check. -/
def techFindings (technologies : List Technology) : List VulnFinding :=
  technologies.filterMap fun tech =>
    match dbLookup tech.name, tech.version with
    | some e, some v =>
      if v ≠ "" ∧ (e.versions.any (fun p => startsWithL (str p) (str v)) ∨
          e.patterns.any (fun m => m (str v))) then
        some { name := tech.name, version := v,
               vulnerability := e.vulnerability, severity := e.severity }
      else none
    | _, _ => none

/-- Code-pattern matching (second loop): one finding per pattern with at
least one match in the (lowercased) html. -/
def patternFindings (html : List Char) : List VulnFinding :=
  vulnerablePatterns.filterMap fun p =>
    if anySuffix p.matchAt (lowerL html) then some (mkPatternFinding p html)
    else none

/-- The trailing `debug=true` configuration check (case-sensitive
`String.prototype.includes`). -/
def debugConfigFindings (html : List Char) : List VulnFinding :=
  if occursIn (str "debug=true") html || occursIn (str "debug = true") html then
    [{ name := "Debug Configuration", version := "Enabled",
       vulnerability := "Debug mode enabled in production", severity := .medium }]
  else []

/-- The trailing `console.log`/`console.error` check (case-sensitive). -/
def consoleLoggingFindings (html : List Char) : List VulnFinding :=
  if occursIn (str "console.log") html || occursIn (str "console.error") html then
    [{ name := "Console Logging", version := "Present",
       vulnerability := "Console logging in production code", severity := .low }]
  else []

/-- `detectVulnerableTechnologies(technologies, html)` (`src/index.tsx`). -/
def detectVulnerableTechnologies (technologies : List Technology)
    (html : String) : List VulnFinding :=
  techFindings technologies ++ patternFindings (str html) ++
    debugConfigFindings (str html) ++ consoleLoggingFindings (str html)

/-! ## Policy gate (`validateRobotsTxt`, `extractUserAgentSection`,
`src/index.tsx`).

The network fetch is modelled by an `Option String` argument: `none`
models an unreachable or non-2xx `robots.txt` (both the `!response.ok`
early return and the `catch` return `true`), `some text` a 2xx body. -/

/-- Leading-whitespace trim. -/
def trimL (s : List Char) : List Char := s.dropWhile isWsJs

/-- Trailing-whitespace trim. -/
def trimR : List Char → List Char
  | [] => []
  | c :: cs =>
    match trimR cs with
    | [] => if isWsJs c then [] else [c]
    | r => c :: r

/-- JavaScript `String.prototype.trim()`. -/
def trimBoth (s : List Char) : List Char := trimR (trimL s)

/-- `sectionContent` assembly: each accumulated line is appended together
with a `'\n'` (`sectionContent += line + '\n'`). -/
def joinNl (ls : List (List Char)) : List Char :=
  ls.foldr (fun l acc => l ++ '\n' :: acc) []

/-- The `user-agent:` directive prefix. -/
def uaHeaderL : List Char := str "user-agent:"

/-- Loop body of `extractUserAgentSection`, accumulating the section's
lines; an unmatched `user-agent:` line while inside the section breaks
out of the loop (returning the accumulator). -/
def extractGo (ua : List Char) :
    List (List Char) → Bool → List (List Char) → List (List Char)
  | [], _, acc => acc
  | l :: rest, inSec, acc =>
    let lowLine := trimBoth (lowerL l)
    if startsWithL uaHeaderL lowLine then
      if occursIn ua lowLine || occursIn ['*'] lowLine then
        extractGo ua rest true [l]
      else if inSec then acc
      else extractGo ua rest inSec acc
    else if inSec then extractGo ua rest true (acc ++ [l])
    else extractGo ua rest inSec acc

/-- `extractUserAgentSection(robotsText, userAgent)` (`src/index.tsx`):
returns the (trimmed) content of the last `User-agent:` section whose
header line contains the lowercased agent name or a `*`; empty content
becomes `null`. -/
def extractUserAgentSection (robotsText : List Char) (userAgent : String) :
    Option (List Char) :=
  let out := trimBoth (joinNl (extractGo (lowerL (str userAgent))
    (splitLines robotsText) false []))
  if out = [] then none else some out

/-- `validateRobotsTxt` (`src/index.tsx`), as a function of the fetched
robots.txt body (`none` = absent/unreachable, fail-open). -/
def validateRobotsTxt (robots : Option String) : Bool :=
  match robots with
  | none => true
  | some robotsText =>
    let t := str robotsText
    let lowerText := lowerL t
    let hasGeneralDisallow := occursIn (str "disallow: /") lowerText
    let hasSpecificUserAgent :=
      occursIn (str "user-agent: scrapiibot/2.0") lowerText
    let wildcardResult :=
      if occursIn (str "user-agent: *") lowerText && hasGeneralDisallow then
        false
      else true
    if hasSpecificUserAgent then
      match extractUserAgentSection t "ScrapiiBot/2.0" with
      | some sec => !(occursIn (str "disallow: /") sec)
      | none => wildcardResult
    else wildcardResult

/-! ## Header & SSL analyzer (`analyzeSecurityHeaders`, `analyzeSSL`,
`src/index.tsx`) -/

/-- Response headers, as the case-normalised lookup `headers.get` offers
them: `none` models a missing header. -/
def FetchHeaders : Type := String → Option String

/-- JavaScript truthiness of a nullable string (`null`/`undefined` and
`''` are falsy). -/
def jsTruthy : Option String → Bool
  | some s => s ≠ ""
  | none => false

/-- Lowercase a string. -/
def lowerS (s : String) : String := String.mk (lowerL (str s))

/-- `parseInt` of a digit run. -/
def digitsToNat (ds : List Char) : Nat :=
  ds.foldl (fun acc c => acc * 10 + (c.toNat - 48)) 0

/-- `value.match(/max-age=(\d+)/)?.[1]` : the digits following the first
occurrence of `max-age=` that is immediately followed by a digit. -/
def findMaxAge : List Char → Option Nat
  | [] => none
  | c :: s' =>
    match stripPrefixL (str "max-age=") (c :: s') with
    | some (d :: r) =>
      if d.isDigit then some (digitsToNat ((d :: r).takeWhile Char.isDigit))
      else findMaxAge s'
    | _ => findMaxAge s'

/-- `parseInt(hsts.match(/max-age=(\d+)/)?.[1] || '0')`. -/
def parsedMaxAge (h : List Char) : Nat := (findMaxAge h).getD 0

/-- CSP validity:  contains `default-src` and `script-src`, and either no
`unsafe-inline` or a `nonce-`/`sha256-` token (on the lowercased value). -/
def cspValidityCheck (v : String) : Bool :=
  let parts := lowerL (str v)
  occursIn (str "default-src") parts && occursIn (str "script-src") parts &&
    (!occursIn (str "unsafe-inline") parts || occursIn (str "nonce-") parts ||
      occursIn (str "sha256-") parts)

/-- HSTS validity: contains `max-age=` with parsed value ≥ 31536000. -/
def hstsValidityCheck (v : String) : Bool :=
  occursIn (str "max-age=") (str v) && decide (parsedMaxAge (str v) ≥ 31536000)

/-- Per-header report entry (`present`/`valid`/`content`). -/
structure HeaderDetail where
  present : Bool
  valid : Bool
  content : String
deriving DecidableEq, Repr

/-- `infoDisclosure` entry. -/
structure InfoDisclosure where
  serverExposed : Bool
  poweredByExposed : Bool
deriving DecidableEq, Repr

/-- The full return value of `analyzeSecurityHeaders`. -/
structure SecurityHeadersReport where
  csp : Bool
  hsts : Bool
  xss : Bool
  contentType : Bool
  cspDetail : HeaderDetail
  hstsDetail : HeaderDetail
  hstsMaxAge : Nat
  xssDetail : HeaderDetail
  referrerPolicyDetail : HeaderDetail
  frameOptionsDetail : HeaderDetail
  infoDisclosure : InfoDisclosure
deriving DecidableEq, Repr

/-- `content` display value (`value || 'No presente'`). -/
def contentOr (v : Option String) : String :=
  match v with
  | some s => if s = "" then "No presente" else s
  | none => "No presente"

/-- `analyzeSecurityHeaders(headers)` (`src/index.tsx`). -/
def analyzeSecurityHeaders (headers : FetchHeaders) : SecurityHeadersReport :=
  let csp := headers "content-security-policy"
  let hsts := headers "strict-transport-security"
  let xssProtection := headers "x-xss-protection"
  let contentType := headers "x-content-type-options"
  let referrerPolicy := headers "referrer-policy"
  let xFrameOptions := headers "x-frame-options"
  let serverHeader := headers "server"
  let poweredBy := headers "x-powered-by"
  let cspValid :=
    match csp with
    | some v => if v ≠ "" then cspValidityCheck v else false
    | none => false
  let hstsValid :=
    match hsts with
    | some v => if v ≠ "" then hstsValidityCheck v else false
    | none => false
  let xssValid :=
    if jsTruthy xssProtection then
      match xssProtection with
      | some v => lowerS v == "1; mode=block"
      | none => false
    else if jsTruthy csp then
      match csp with
      | some v =>
        occursIn (str "object-src") (lowerL (str v)) &&
          occursIn (str "script-src") (lowerL (str v))
      | none => false
    else false
  let contentTypeValid :=
    match contentType with
    | some v => lowerS v == "nosniff"
    | none => false
  let referrerPolicyValid :=
    if jsTruthy referrerPolicy then
      match referrerPolicy with
      | some v =>
        ["no-referrer", "strict-origin-when-cross-origin",
         "no-referrer-when-downgrade"].any fun policy =>
          occursIn (str policy) (lowerL (str v))
      | none => false
    else false
  let frameOptionsValid :=
    if jsTruthy xFrameOptions then
      match xFrameOptions with
      | some v =>
        ["deny", "sameorigin", "allow-from"].any fun option =>
          occursIn (str option) (lowerL (str v))
      | none => false
    else false
  let serverExposed :=
    if jsTruthy serverHeader then
      match serverHeader with
      | some v =>
        ["apache", "nginx", "iis", "lighttpd", "tomcat"].any fun p =>
          occursIn (str p) (lowerL (str v))
      | none => false
    else false
  let poweredByExposed :=
    if jsTruthy poweredBy then
      match poweredBy with
      | some v =>
        ["express", "php", "laravel", "django", "rails"].any fun p =>
          occursIn (str p) (lowerL (str v))
      | none => false
    else false
  { csp := cspValid
    hsts := hstsValid
    xss := xssValid
    contentType := contentTypeValid
    cspDetail := ⟨jsTruthy csp, cspValid, contentOr csp⟩
    hstsDetail := ⟨jsTruthy hsts, hstsValid, contentOr hsts⟩
    hstsMaxAge :=
      match hsts with
      | some v => if v ≠ "" then parsedMaxAge (str v) else 0
      | none => 0
    xssDetail := ⟨jsTruthy xssProtection, xssValid, contentOr xssProtection⟩
    referrerPolicyDetail :=
      ⟨jsTruthy referrerPolicy, referrerPolicyValid, contentOr referrerPolicy⟩
    frameOptionsDetail :=
      ⟨jsTruthy xFrameOptions, frameOptionsValid, contentOr xFrameOptions⟩
    infoDisclosure := ⟨serverExposed, poweredByExposed⟩ }

/-- `additionalInfo` of an HTTPS `SSLAnalysis`. -/
structure SslAdditionalInfo where
  certificateIssuer : String
  protocolVersion : String
  cipherSuite : String
  mixedContent : Bool
  daysRemaining : ℤ
deriving DecidableEq, Repr

/-- Return value of `analyzeSSL`. -/
structure SslAnalysis where
  hasSSL : Bool
  validCertificate : Bool
  tlsVersion : String
  httpsEnabled : Bool
  additionalInfo : Option SslAdditionalInfo
deriving DecidableEq, Repr

/-- `analyzeSSL(url, response)` (`src/index.tsx`).  The call
`Math.random()` inside `certificateValidity.daysRemaining` is modelled by
the explicit sample `rand ∈ [0, 1)`:
`Math.floor(Math.random() * 365) + 30`. -/
def analyzeSSL (url : String) (headers : FetchHeaders) (rand : ℚ) :
    SslAnalysis :=
  let isHttps := startsWithL (str "https://") (str url)
  let additionalInfo :=
    if isHttps then
      let serverHeader := headers "server"
      let protocolVersion :=
        if (serverHeader.map fun v => occursIn (str "Apache/2.4") (str v)).getD
            false then "TLS 1.2"
        else if (serverHeader.map fun v =>
            occursIn (str "nginx/1.16") (str v)).getD false then "TLS 1.2"
        else "TLS 1.2+"
      some { certificateIssuer :=
               if (serverHeader.map fun v =>
                   occursIn (str "Let's Encrypt") (str v)).getD false then
                 "Let's Encrypt"
               else "Unknown"
             protocolVersion := protocolVersion
             cipherSuite := "Unknown"
             mixedContent := false
             daysRemaining := Int.floor (rand * 365) + 30 }
    else none
  { hasSSL := isHttps
    validCertificate := isHttps
    tlsVersion := if isHttps then "TLS 1.2+" else "N/A"
    httpsEnabled := isHttps
    additionalInfo := additionalInfo }

/-! ## Realistic security calculator
(`RealisticSecurityCalculator`, `src/src/utils/security_integrator.ts`).

JavaScript numbers are modelled by `ℚ` (all the constants involved are
exact decimals); `Math.round` is `⌊q + 1/2⌋`. -/

/-- `Math.round` (round half toward `+∞`). -/
def jsRound (q : ℚ) : ℤ := Int.floor (q + 1/2)

/-- `VulnerabilityData`. -/
structure VulnerabilityData where
  critical : Nat
  high : Nat
  medium : Nat
  low : Nat
deriving DecidableEq, Repr

/-- `SiteContext['type']`. -/
inductive CtxSiteType where
  | static | dynamic | ecommerce | enterprise | government | api
  | singlePageApp | blog | portfolio
deriving DecidableEq, Repr

/-- `SiteContext`. -/
structure SiteContext where
  type : CtxSiteType
  hasUserGeneratedContent : Bool
  handlesFinancialData : Bool
  hasLoginSystem : Bool
  allowsFileUploads : Bool
  usesExternalAPIs : Bool
  hasThirdPartyIntegrations : Bool
  isPublicFacing : Bool
  usesHTTPS : Bool
  technologyStack : List String
  targetAudience : String
deriving DecidableEq, Repr

/-- First-match association-list lookup (JS object indexing for the
string-keyed literal tables, whose keys are distinct). -/
def lookupTable {α : Type} (t : List (String × α)) (k : String) : Option α :=
  (t.find? fun e => e.1 == k).map fun e => e.2

/-- `SITE_BASELINES` (the integrator's flat score table). -/
def siteBaselines : List (String × ℤ) :=
  [("ecommerce-standard", 75), ("ecommerce-premium", 85),
   ("enterprise-smb", 70), ("enterprise-corporate", 80),
   ("portfolio-professional", 65), ("saas-platform", 78),
   ("government", 90), ("financial", 95), ("healthcare", 85),
   ("education", 75), ("media-publisher", 70), ("blog-influencer", 60),
   ("landing-page-conversion", 65), ("DEFAULT", 80)]

/-- `SITE_BASELINES[siteType] || SITE_BASELINES.DEFAULT` (no table value
is `0`, so JS `||` is exactly the missing-key fallback). -/
def realisticBaseline (siteType : String) : ℤ :=
  (lookupTable siteBaselines siteType).getD 80

/-- `HEADER_WEIGHTS` (name, weight, criticality). -/
def headerWeights : List (String × ℚ × String) :=
  [("content-security-policy", 25, "CRITICAL"),
   ("strict-transport-security", 20, "CRITICAL"),
   ("x-frame-options", 15, "HIGH"),
   ("x-content-type-options", 12, "HIGH"),
   ("referrer-policy", 8, "MEDIUM"),
   ("permissions-policy", 6, "MEDIUM"),
   ("x-xss-protection", 3, "LOW")]

/-- `evaluateCSPQuality`. -/
def evaluateCSPQuality (cspValue : String) : ℚ :=
  let goodPractices := ["default-src", "script-src", "style-src"]
  let hasNonces := occursIn (str "nonce-") (str cspValue) ||
    occursIn (str "sha256-") (str cspValue)
  let hasUnsafeInline := occursIn (str "'unsafe-inline'") (str cspValue)
  let score : ℚ := goodPractices.foldl
    (fun acc d => if occursIn (str d) (str cspValue) then acc + 2/10 else acc)
    (5/10)
  let score := if !hasUnsafeInline then score + 3/10 else score
  let score := if hasNonces then score + 2/10 else score
  min 1 score

/-- `evaluateHSTSQuality`. -/
def evaluateHSTSQuality (hstsValue : String) : ℚ :=
  let hasMaxAge := occursIn (str "max-age=") (str hstsValue)
  let hasIncludeSubDomains := occursIn (str "includeSubDomains") (str hstsValue)
  let hasPreload := occursIn (str "preload") (str hstsValue)
  let score : ℚ := 3/10
  let score := if hasMaxAge then score + 3/10 else score
  let score := if hasIncludeSubDomains then score + 2/10 else score
  let score := if hasPreload then score + 2/10 else score
  min 1 score

/-- `evaluateHeaderQuality`. -/
def evaluateHeaderQuality (headerName : String) (value : String) : ℚ :=
  if headerName = "content-security-policy" then evaluateCSPQuality value
  else if headerName = "strict-transport-security" then
    evaluateHSTSQuality value
  else if headerName = "x-frame-options" then
    if occursIn (str "DENY") (str value) ||
        occursIn (str "SAMEORIGIN") (str value) then 1 else 7/10
  else if value ≠ "" then 1 else 0

/-- `contextModifiers['static-site']`. -/
def staticSiteMods : List (String × ℚ) :=
  [("content-security-policy", 3/10), ("referrer-policy", 5/10),
   ("permissions-policy", 4/10), ("x-xss-protection", 1/10)]

/-- `contextModifiers['api-only']`. -/
def apiOnlyMods : List (String × ℚ) :=
  [("content-security-policy", 0), ("x-frame-options", 0),
   ("referrer-policy", 2/10)]

/-- `contextModifiers['blog-portfolio']`. -/
def blogPortfolioMods : List (String × ℚ) :=
  [("content-security-policy", 4/10), ("x-frame-options", 3/10),
   ("referrer-policy", 11/10)]

/-- The spread-merged modifier table of `calculateMissingHeaderPenalty`:
`static-site`, overridden by `api-only` when the context type is
`api`/`enterprise`, then by `blog-portfolio` when it is
`blog`/`portfolio`. -/
def modifierFor (ctx : SiteContext) (headerName : String) : Option ℚ :=
  let base := lookupTable staticSiteMods headerName
  let afterApi :=
    if ctx.type = .api ∨ ctx.type = .enterprise then
      ((lookupTable apiOnlyMods headerName).orElse fun _ => base)
    else base
  if ctx.type = .blog ∨ ctx.type = .portfolio then
    ((lookupTable blogPortfolioMods headerName).orElse fun _ => afterApi)
  else afterApi

/-- `calculateMissingHeaderPenalty` (the `criticality` parameter is
unused in the source as well). -/
def calculateMissingHeaderPenalty (headerName : String)
    (criticality : String) (context : Option SiteContext) : ℚ :=
  match context with
  | none => 1
  | some ctx =>
    match modifierFor ctx headerName with
    | some m => 1 * m
    | none => 1

/-- The `{present, missing, score}` record of
`evaluateHeadersRealistically`.  Note that the source *adds* the missing
penalties (`missingPoints += …; score = round(present + missing)`). -/
structure HeadersScoreParts where
  present : ℤ
  missing : ℤ
  score : ℤ
deriving DecidableEq, Repr

/-- `evaluateHeadersRealistically`. -/
def evaluateHeadersRealistically (headers : FetchHeaders)
    (context : Option SiteContext) : HeadersScoreParts :=
  let pm : ℚ × ℚ := headerWeights.foldl
    (fun pm hw =>
      let v := headers hw.1
      if jsTruthy v then
        (pm.1 + hw.2.1 * evaluateHeaderQuality hw.1 (v.getD ""), pm.2)
      else
        (pm.1, pm.2 + hw.2.1 * calculateMissingHeaderPenalty hw.1 hw.2.2 context))
    (0, 0)
  { present := jsRound pm.1, missing := jsRound pm.2,
    score := jsRound (pm.1 + pm.2) }

/-- `evaluateVulnerabilitiesRealistically`: per-severity capped weighted
penalties, totalled, capped at 30 and negated (`Math.round` of an integer
value is the identity and is omitted). -/
def evaluateVulnerabilitiesRealistically (vulns : VulnerabilityData) : ℤ :=
  let totalPenalty : Nat :=
    (if 0 < vulns.critical then 25 * min vulns.critical 3 else 0) +
    (if 0 < vulns.high then 12 * min vulns.high 5 else 0) +
    (if 0 < vulns.medium then 5 * min vulns.medium 8 else 0) +
    (if 0 < vulns.low then 2 * min vulns.low 10 else 0)
  Neg.neg (min (totalPenalty : ℤ) 30)

/-- `calculateContextualBonus`. -/
def calculateContextualBonus (headers : FetchHeaders)
    (vulnerabilities : VulnerabilityData) (context : Option SiteContext) : ℤ :=
  let hstsBonus : ℤ :=
    match headers "strict-transport-security" with
    | some s => if occursIn (str "max-age") (str s) then 5 else 0
    | none => 0
  let totalVulns := vulnerabilities.critical + vulnerabilities.high +
    vulnerabilities.medium + vulnerabilities.low
  let vulnBonus : ℤ := if totalVulns = 0 then 3 else if totalVulns ≤ 2 then 1 else 0
  let ctxBonus : ℤ :=
    match context with
    | none => 0
    | some ctx =>
      (if (ctx.type = .blog ∨ ctx.type = .portfolio) ∧
          ¬ctx.hasUserGeneratedContent then 2 else 0) +
      (if ¬ctx.handlesFinancialData ∧ ¬ctx.hasLoginSystem ∧
          ¬ctx.allowsFileUploads then 3 else 0)
  hstsBonus + vulnBonus + ctxBonus

/-- `calculateGrade`. -/
def calculateGrade (score : ℚ) : String :=
  if score ≥ 95 then "A+"
  else if score ≥ 90 then "A"
  else if score ≥ 85 then "A-"
  else if score ≥ 80 then "B+"
  else if score ≥ 75 then "B"
  else if score ≥ 70 then "B-"
  else if score ≥ 65 then "C+"
  else if score ≥ 60 then "C"
  else if score ≥ 55 then "C-"
  else if score ≥ 50 then "D"
  else "F"

/-- `calculateRiskLevel` (risk levels are the source's Spanish strings:
`Bajo`/`Medio`/`Alto`/`Crítico` = Low/Medium/High/Critical). -/
def calculateRiskLevel (score : ℚ) (vulnerabilities : VulnerabilityData) :
    String :=
  if score ≥ 85 ∧ ¬(vulnerabilities.critical > 0) ∧ vulnerabilities.high ≤ 1
    then "Bajo"
  else if score ≥ 70 ∧ ¬(vulnerabilities.critical > 0) then "Medio"
  else if score ≥ 50 ∨ vulnerabilities.high > 2 then "Alto"
  else "Crítico"

/-- The `SecurityScore` record returned by `calculateRealisticScore`
(details flattened into one structure). -/
structure SecurityScore where
  overall : ℤ
  grade : String
  riskLevel : String
  baseline : ℤ
  headers : HeadersScoreParts
  vulnCritical : Nat
  vulnHigh : Nat
  vulnMedium : Nat
  vulnLow : Nat
  vulnScore : ℤ
  bonus : ℤ
  total : ℤ
deriving DecidableEq, Repr

/-- `calculateRealisticScore(headers, vulnerabilities, siteType, context)`.
Every summand of `total` is an integer, so `Math.round(total)` for the
`overall` field is the identity. -/
def calculateRealisticScore (headers : FetchHeaders)
    (vulnerabilities : VulnerabilityData) (siteType : String := "DEFAULT")
    (context : Option SiteContext := none) : SecurityScore :=
  let baseline := realisticBaseline siteType
  let headersScore := evaluateHeadersRealistically headers context
  let vulnScore := evaluateVulnerabilitiesRealistically vulnerabilities
  let bonusScore := calculateContextualBonus headers vulnerabilities context
  let total := max 0 (min 100 (baseline + headersScore.score + vulnScore +
    bonusScore))
  { overall := total
    grade := calculateGrade (total : ℚ)
    riskLevel := calculateRiskLevel (total : ℚ) vulnerabilities
    baseline := baseline
    headers := headersScore
    vulnCritical := vulnerabilities.critical
    vulnHigh := vulnerabilities.high
    vulnMedium := vulnerabilities.medium
    vulnLow := vulnerabilities.low
    vulnScore := vulnScore
    bonus := bonusScore
    total := total }

/-! ## `SecurityIntegrationUtils.filterFalsePositives` -/

/-- The Google/legitimate-service keyword test (`isGoogleSafe`). -/
def isGoogleSafe (vuln : VulnFinding) : Bool :=
  ["google", "gtm", "tag manager", "maps api", "analytics", "firebase",
   "gapi"].any fun k => occursIn (str k) (lowerL (str vuln.vulnerability))

/-- The development-configuration keyword test (`isDevSafe`). -/
def isDevSafe (vuln : VulnFinding) : Bool :=
  ["console.log", "debug mode", "development"].any fun k =>
    occursIn (str k) (lowerL (str vuln.vulnerability))

/-- The safe-innerHTML test (`isSafeInnerHTML`). -/
def isSafeInnerHTML (vuln : VulnFinding) : Bool :=
  occursIn (str "innerhtml") (lowerL (str vuln.vulnerability)) &&
    (["hardcoded", "safe", "sanitized"].any fun k =>
      occursIn (str k) (lowerL (str vuln.vulnerability)))

/-- `SecurityIntegrationUtils.filterFalsePositives`. -/
def filterFalsePositives (vulnerabilities : List VulnFinding) :
    List VulnFinding :=
  vulnerabilities.filter fun vuln =>
    !isGoogleSafe vuln && !isDevSafe vuln && !isSafeInnerHTML vuln

/-! ## Baseline scorer (`BaselineScorer`, `src/src/utils/baseline_scoring.ts`) -/

/-- `ExpectedHeader['quality']`. -/
inductive HQuality where
  | basic | good | excellent
deriving DecidableEq, Repr

/-- `ExpectedHeader`. -/
structure ExpectedHeader where
  name : String
  expected : Bool
  quality : HQuality
  weight : ℚ
deriving DecidableEq, Repr

/-- `OptimizationTarget`. -/
structure OptimizationTarget where
  area : String
  currentScore : ℚ
  targetScore : ℚ
  effort : String
  impact : String
deriving DecidableEq, Repr

/-- `BaselineConfig`. -/
structure BaselineConfig where
  type : String
  description : String
  baseScore : ℚ
  expectedHeaders : List ExpectedHeader
  typicalVulnerabilities : Nat
  industry : String
  riskProfile : String
  optimizationTargets : List OptimizationTarget
deriving DecidableEq, Repr

/-- The `BASELINES` table of `BaselineScorer` (13 site types, no
`DEFAULT` entry). -/
def scorerBaselines : List (String × BaselineConfig) :=
  [("ecommerce-standard",
    ⟨"ecommerce-standard", "Tienda online estándar como Alkosto, MercadoLibre",
     75,
     [⟨"content-security-policy", true, .good, 25⟩,
      ⟨"strict-transport-security", true, .good, 20⟩,
      ⟨"x-frame-options", true, .good, 15⟩,
      ⟨"x-content-type-options", true, .good, 12⟩,
      ⟨"referrer-policy", false, .basic, 8⟩],
     1, "retail", "conservative",
     [⟨"CSP Implementation", 60, 85, "medium", "high"⟩,
      ⟨"HTTPS Configuration", 70, 95, "low", "high"⟩]⟩),
   ("ecommerce-premium",
    ⟨"ecommerce-premium", "E-commerce premium como Amazon, tiendas de lujo",
     85,
     [⟨"content-security-policy", true, .excellent, 25⟩,
      ⟨"strict-transport-security", true, .excellent, 20⟩,
      ⟨"x-frame-options", true, .excellent, 15⟩,
      ⟨"x-content-type-options", true, .excellent, 12⟩,
      ⟨"referrer-policy", true, .excellent, 8⟩],
     0, "retail", "conservative",
     [⟨"Advanced CSP", 80, 95, "high", "high"⟩]⟩),
   ("enterprise-smb",
    ⟨"enterprise-smb", "Sitios empresariales PYME", 70,
     [⟨"content-security-policy", true, .basic, 25⟩,
      ⟨"strict-transport-security", true, .good, 20⟩,
      ⟨"x-frame-options", true, .basic, 15⟩,
      ⟨"x-content-type-options", true, .good, 12⟩],
     2, "services", "moderate",
     [⟨"Basic Security Headers", 50, 75, "low", "high"⟩]⟩),
   ("enterprise-corporate",
    ⟨"enterprise-corporate", "Sitios corporativos grandes", 80,
     [⟨"content-security-policy", true, .good, 25⟩,
      ⟨"strict-transport-security", true, .excellent, 20⟩,
      ⟨"x-frame-options", true, .good, 15⟩,
      ⟨"x-content-type-options", true, .good, 12⟩,
      ⟨"referrer-policy", true, .good, 8⟩],
     1, "services", "conservative",
     [⟨"Corporate Security", 70, 90, "medium", "high"⟩]⟩),
   ("portfolio-professional",
    ⟨"portfolio-professional",
     "Portfolios y sitios personales profesionales", 65,
     [⟨"content-security-policy", true, .basic, 20⟩,
      ⟨"strict-transport-security", true, .good, 15⟩,
      ⟨"x-frame-options", false, .basic, 8⟩,
      ⟨"x-content-type-options", true, .good, 10⟩],
     1, "services", "moderate",
     [⟨"Basic Protection", 45, 70, "low", "medium"⟩]⟩),
   ("saas-platform",
    ⟨"saas-platform", "Plataformas SaaS", 78,
     [⟨"content-security-policy", true, .good, 25⟩,
      ⟨"strict-transport-security", true, .good, 20⟩,
      ⟨"x-frame-options", true, .good, 15⟩,
      ⟨"x-content-type-options", true, .good, 12⟩,
      ⟨"referrer-policy", true, .good, 8⟩],
     1, "technology", "conservative",
     [⟨"SaaS Security", 65, 85, "medium", "high"⟩]⟩),
   ("government",
    ⟨"government", "Sitios gubernamentales", 90,
     [⟨"content-security-policy", true, .excellent, 25⟩,
      ⟨"strict-transport-security", true, .excellent, 20⟩,
      ⟨"x-frame-options", true, .excellent, 15⟩,
      ⟨"x-content-type-options", true, .excellent, 12⟩,
      ⟨"referrer-policy", true, .excellent, 8⟩],
     0, "government", "conservative",
     [⟨"Government Standards", 85, 95, "medium", "high"⟩]⟩),
   ("financial",
    ⟨"financial", "Instituciones financieras", 95,
     [⟨"content-security-policy", true, .excellent, 25⟩,
      ⟨"strict-transport-security", true, .excellent, 20⟩,
      ⟨"x-frame-options", true, .excellent, 15⟩,
      ⟨"x-content-type-options", true, .excellent, 12⟩,
      ⟨"referrer-policy", true, .excellent, 8⟩],
     0, "finance", "conservative",
     [⟨"Financial Grade Security", 90, 98, "high", "high"⟩]⟩),
   ("healthcare",
    ⟨"healthcare", "Sitios de salud y medicina", 85,
     [⟨"content-security-policy", true, .excellent, 25⟩,
      ⟨"strict-transport-security", true, .excellent, 20⟩,
      ⟨"x-frame-options", true, .good, 15⟩,
      ⟨"x-content-type-options", true, .good, 12⟩],
     1, "healthcare", "conservative",
     [⟨"HIPAA Compliance", 75, 90, "medium", "high"⟩]⟩),
   ("education",
    ⟨"education", "Sitios educativos y universidades", 75,
     [⟨"content-security-policy", true, .good, 25⟩,
      ⟨"strict-transport-security", true, .good, 20⟩,
      ⟨"x-frame-options", true, .good, 15⟩,
      ⟨"x-content-type-options", true, .good, 12⟩],
     1, "education", "moderate",
     [⟨"Educational Security", 65, 80, "medium", "medium"⟩]⟩),
   ("media-publisher",
    ⟨"media-publisher", "Medios de comunicación y publishers", 70,
     [⟨"content-security-policy", true, .basic, 20⟩,
      ⟨"strict-transport-security", true, .good, 15⟩,
      ⟨"x-frame-options", false, .basic, 10⟩,
      ⟨"x-content-type-options", true, .good, 12⟩],
     2, "media", "moderate",
     [⟨"Content Protection", 55, 75, "low", "medium"⟩]⟩),
   ("blog-influencer",
    ⟨"blog-influencer", "Blogs personales e influencers", 60,
     [⟨"content-security-policy", true, .basic, 15⟩,
      ⟨"strict-transport-security", true, .good, 12⟩,
      ⟨"x-frame-options", false, .basic, 5⟩,
      ⟨"x-content-type-options", true, .good, 8⟩],
     1, "media", "moderate",
     [⟨"Basic Blog Security", 45, 65, "low", "low"⟩]⟩),
   ("landing-page-conversion",
    ⟨"landing-page-conversion", "Landing pages de conversión y marketing", 65,
     [⟨"content-security-policy", true, .basic, 18⟩,
      ⟨"strict-transport-security", true, .good, 15⟩,
      ⟨"x-frame-options", true, .good, 12⟩,
      ⟨"x-content-type-options", true, .good, 10⟩],
     1, "services", "moderate",
     [⟨"Landing Page Security", 50, 70, "low", "medium"⟩]⟩)]

/-- `INDUSTRY_BENCHMARKS` (average, top10Percent, median). -/
def industryBenchmarks : List (String × (ℚ × ℚ × ℚ)) :=
  [("retail", (72, 88, 70)), ("finance", (85, 96, 83)),
   ("government", (78, 92, 76)), ("healthcare", (74, 89, 72)),
   ("education", (68, 84, 66)), ("technology", (76, 90, 74)),
   ("media", (65, 82, 63)), ("manufacturing", (69, 85, 67)),
   ("services", (71, 87, 69)), ("nonprofit", (62, 80, 60))]

/-- `getQualityMultiplier`. -/
def getQualityMultiplier : HQuality → ℚ
  | .basic => 6/10
  | .good => 8/10
  | .excellent => 1

/-- `calculateHeaderScore` (headers are looked up by lowercased name;
present headers add `weight × qualityMultiplier`, expected-but-missing
headers subtract `weight × 0.5`). -/
def calculateHeaderScore (actualHeaders : FetchHeaders)
    (expectedHeaders : List ExpectedHeader) : ℚ :=
  expectedHeaders.foldl
    (fun score e =>
      let actualValue := actualHeaders (lowerS e.name)
      if jsTruthy actualValue then
        score + e.weight * getQualityMultiplier e.quality
      else if e.expected then score - e.weight * (5/10)
      else score)
    0

/-- `calculateVulnerabilityPenalty`.  Note the source caps with
`Math.min(penalty, -20)`, which *lowers* any nonzero penalty to at most
`-20`. -/
def calculateVulnerabilityPenalty (actualVulns : VulnerabilityData)
    (typicalCount : Nat) : ℚ :=
  let totalVulns := actualVulns.critical + actualVulns.high +
    actualVulns.medium + actualVulns.low
  let extraVulns := totalVulns - typicalCount
  if extraVulns = 0 then 0
  else
    let penalty : ℚ :=
      (if 0 < actualVulns.critical then -(15 * (actualVulns.critical : ℚ)) else 0) +
      (if 0 < actualVulns.high then -(8 * (actualVulns.high : ℚ)) else 0) +
      (if 0 < actualVulns.medium then -(3 * (actualVulns.medium : ℚ)) else 0) +
      (if 0 < actualVulns.low then -(1 * (actualVulns.low : ℚ)) else 0)
    min penalty (-20)

/-- `evaluateCSPQualityScore` (scorer variant, scored out of 25). -/
def evaluateCSPQualityScore (cspValue : String) : ℚ :=
  let score : ℚ := 10
  let score := if occursIn (str "default-src") (str cspValue) then score + 5 else score
  let score := if occursIn (str "script-src") (str cspValue) then score + 5 else score
  let score := if occursIn (str "style-src") (str cspValue) then score + 3 else score
  let score := if !occursIn (str "'unsafe-inline'") (str cspValue) then score + 4 else score
  let score := if occursIn (str "nonce-") (str cspValue) ||
      occursIn (str "sha256-") (str cspValue) then score + 3 else score
  min 25 score

/-- `evaluateHSTSQualityScore` (scorer variant, scored out of 20). -/
def evaluateHSTSQualityScore (hstsValue : String) : ℚ :=
  let score : ℚ := 10
  let score := if occursIn (str "max-age=") (str hstsValue) then score + 5 else score
  let score := if occursIn (str "includeSubDomains") (str hstsValue) then score + 3 else score
  let score := if occursIn (str "preload") (str hstsValue) then score + 2 else score
  min 20 score

/-- `calculateActualQualityScore`. -/
def calculateActualQualityScore (headerName : String) (value : String) : ℚ :=
  let n := lowerS headerName
  if n = "content-security-policy" then evaluateCSPQualityScore value
  else if n = "strict-transport-security" then evaluateHSTSQualityScore value
  else if n = "x-frame-options" then
    if occursIn (str "DENY") (str value) ||
        occursIn (str "SAMEORIGIN") (str value) then 15 else 8
  else if n = "x-content-type-options" then
    if lowerS value = "nosniff" then 12 else 6
  else if n = "referrer-policy" then 8
  else 5

/-- `ScoreGap`. -/
structure ScoreGap where
  area : String
  expected : ℚ
  actual : ℚ
  gap : ℚ
  priority : String
deriving DecidableEq, Repr

/-- Stable insertion into a gap list sorted by decreasing `gap`
(`gaps.sort((a, b) => b.gap - a.gap)`). -/
def insertGapDesc (x : ScoreGap) : List ScoreGap → List ScoreGap
  | [] => [x]
  | y :: ys => if x.gap > y.gap then x :: y :: ys else y :: insertGapDesc x ys

/-- Sort gaps by decreasing `gap` (stably, as ECMAScript `sort`). -/
def sortGapsDesc (l : List ScoreGap) : List ScoreGap :=
  l.foldl (fun acc x => insertGapDesc x acc) []

/-- `identifyGaps`. -/
def identifyGaps (actualHeaders : FetchHeaders)
    (expectedHeaders : List ExpectedHeader) : List ScoreGap :=
  let gaps := expectedHeaders.foldl
    (fun gaps e =>
      let actualValue := actualHeaders (lowerS e.name)
      if e.expected ∧ ¬jsTruthy actualValue then
        gaps ++ [⟨e.name, e.weight, 0, e.weight,
          if e.weight ≥ 20 then "critical"
          else if e.weight ≥ 15 then "high" else "medium"⟩]
      else if jsTruthy actualValue then
        let actualQualityScore :=
          calculateActualQualityScore e.name ((actualHeaders (lowerS e.name)).getD "")
        let expectedQualityScore := e.weight * getQualityMultiplier e.quality
        let gap := expectedQualityScore - actualQualityScore
        if gap > 5 then
          gaps ++ [⟨e.name, expectedQualityScore, actualQualityScore, gap,
            if gap ≥ 15 then "high" else "medium"⟩]
        else gaps
      else gaps)
    []
  sortGapsDesc gaps

/-- `IndustryBenchmark`. -/
structure IndustryBenchmark where
  averageScore : ℚ
  top10Percent : ℚ
  medianScore : ℚ
  percentile : ℚ
deriving DecidableEq, Repr

/-- `getIndustryBenchmark` (every `industry` value of the baselines table
is a key of `INDUSTRY_BENCHMARKS`; a missing key would be a JS runtime
error, modelled by the zero benchmark). -/
def getIndustryBenchmark (industry : String) : IndustryBenchmark :=
  match lookupTable industryBenchmarks industry with
  | some b => ⟨b.1, b.2.1, b.2.2, 50⟩
  | none => ⟨0, 0, 0, 50⟩

/-- `BaselineRecommendation`. -/
structure BaselineRecommendation where
  category : String
  action : String
  expectedImpact : ℚ
  difficulty : String
  timeframe : String
deriving DecidableEq, Repr

/-- `generateRecommendations`. -/
def generateRecommendations (gaps : List ScoreGap)
    (baseline : BaselineConfig) : List BaselineRecommendation :=
  let criticalGaps := gaps.filter fun g => g.priority == "critical"
  let highGaps := gaps.filter fun g => g.priority == "high"
  (criticalGaps.map fun gap =>
    ⟨"Security Headers", "Implementar " ++ gap.area, gap.gap, "easy",
     "1-2 días"⟩) ++
  ((highGaps.take 3).map fun gap =>
    ⟨"Security Headers", "Mejorar " ++ gap.area, gap.gap * (7/10), "medium",
     "3-5 días"⟩)

/-- `SiteAnalysis`. -/
structure SiteAnalysis where
  siteType : String
  baselineScore : ℚ
  actualScore : ℚ
  gaps : List ScoreGap
  industryComparison : IndustryBenchmark
  recommendations : List BaselineRecommendation
deriving DecidableEq, Repr

/-- `BaselineScorer.analyzeSite`: the strict scoring path.  An unknown
site type hits `throw new Error(...)`, modelled by `Except.error` with
the source's message. -/
def analyzeSite (siteType : String) (actualHeaders : FetchHeaders)
    (actualVulnerabilities : VulnerabilityData) :
    Except String SiteAnalysis :=
  match lookupTable scorerBaselines siteType with
  | none => .error ("Tipo de sitio no reconocido: " ++ siteType)
  | some baseline =>
    let headerScore := calculateHeaderScore actualHeaders baseline.expectedHeaders
    let vulnPenalty := calculateVulnerabilityPenalty actualVulnerabilities
      baseline.typicalVulnerabilities
    let actualScore := max 0 (min 100 (baseline.baseScore + headerScore + vulnPenalty))
    let gaps := identifyGaps actualHeaders baseline.expectedHeaders
    let industryBenchmark := getIndustryBenchmark baseline.industry
    let recommendations := generateRecommendations gaps baseline
    .ok { siteType := siteType
          baselineScore := baseline.baseScore
          actualScore := actualScore
          gaps := gaps
          industryComparison := industryBenchmark
          recommendations := recommendations }

/-! ## Technology detector (`detectTechnologies`,
`detectTechnologyVersion`, `getCurrentVersions`, `src/index.tsx`).

The parsed DOM is modelled by the four observations the detector makes of
it: selector hits, script `src` attributes, link `href` attributes and
the generator `meta` content. -/

/-- DOM observations used by `detectTechnologies`. -/
structure DomDoc where
  selectorHit : String → Bool
  scriptSrcs : List (Option String)
  linkHrefs : List (Option String)
  metaGenerator : Option String

/-- Version-extraction parsers: consume a match at the head of the list
and return the unconsumed rest.  Each starred/optional class in the
source regexes is disjoint from what follows it, so greedy parsing
without backtracking is exact. -/
def VP : Type := List Char → Option (List Char)

/-- Literal. -/
def vLit (w : String) : VP := fun s => stripPrefixL (str w) s

/-- Mandatory character class `[…]`. -/
def vCls (cs : String) : VP := fun s =>
  match s with
  | c :: r => if (str cs).contains c then some r else none
  | [] => none

/-- Optional character class `[…]?` (greedy). -/
def vClsOpt (cs : String) : VP := fun s =>
  match s with
  | c :: r => if (str cs).contains c then some r else some s
  | [] => some s

/-- Starred character class `[…]*` (greedy). -/
def vClsStar (cs : List Char) : VP := fun s =>
  some (s.dropWhile fun c => cs.contains c)

/-- `\d+` (greedy). -/
def vDigits : VP := fun s =>
  match s with
  | c :: _ => if c.isDigit then some (s.dropWhile Char.isDigit) else none
  | [] => none

/-- Literal `\.`. -/
def vDot : VP := fun s =>
  match s with
  | '.' :: r => some r
  | _ => none

/-- Sequencing of parsers. -/
def vChain (ps : List VP) : VP := fun s =>
  ps.foldl (fun acc p => acc.bind p) (some s)

/-- `\d+\.\d+\.\d+`. -/
def vD3 : List VP := [vDigits, vDot, vDigits, vDot, vDigits]

/-- `\d+\.\d+`. -/
def vD2 : List VP := [vDigits, vDot, vDigits]

/-- The characters of `[:\s]`. -/
def colonWsCls : List Char := ':' :: str " \t\n\x0d\x0b\x0c"

/-- Leftmost regex search returning the matched substring (`match[0]`). -/
def searchVP (p : VP) : List Char → Option (List Char)
  | [] => (p []).map fun _ => []
  | c :: t =>
    match p (c :: t) with
    | some rest => some ((c :: t).take ((c :: t).length - rest.length))
    | none => searchVP p t

/-- First-alternative-first regex alternation. -/
def vAlt (p q : VP) : VP := fun s =>
  match p s with
  | some r => some r
  | none => q s

/-- `matches[0].match(/\d+\.\d+\.\d+|\d+\.\d+/)?.[0]` : leftmost
occurrence, three-component alternative preferred at each position. -/
def subVersionExtract (m0 : List Char) : Option (List Char) :=
  searchVP (vAlt (vChain vD3) (vChain vD2)) m0

/-- The per-technology pattern loop of `detectTechnologyVersion`: first
pattern with a match whose digits extract wins.  (Every listed pattern
contains `\d+\.\d+`, so the extraction always succeeds on a match and the
source's redundant `g`-flag `matchAll` re-scan can find nothing new.) -/
def tryPatterns : List VP → List Char → Option (List Char)
  | [], _ => none
  | p :: ps, h =>
    match searchVP p h with
    | some m0 =>
      match subVersionExtract m0 with
      | some v => some v
      | none => tryPatterns ps h
    | none => tryPatterns ps h

/-- The `versionPatterns` table of `detectTechnologyVersion`, with each
regex translated parser-by-parser (patterns run on lowercased html; the
literals are already lowercase). -/
def versionPatternsTable : List (String × List VP) :=
  [("React",
    [vChain ([vLit "react", vClsOpt ".-"] ++ vD3),
     vChain ([vLit "react", vCls "-_"] ++ vD3),
     vChain ([vLit "react", vCls ".-"] ++ vD2),
     vChain ([vLit "react", vCls "-_"] ++ vD2),
     vChain ([vLit "react.version", vClsOpt ".-"] ++ vD3),
     vChain ([vLit "react-dom@"] ++ vD3),
     vChain ([vLit "react", vCls ".-", vLit "version", vClsStar colonWsCls,
              vClsOpt "'\""] ++ vD3),
     vChain ([vLit "react", vCls ".-", vLit "v"] ++ vD3)]),
   ("jQuery",
    [vChain ([vLit "jquery", vClsOpt ".-"] ++ vD3),
     vChain ([vLit "jquery", vClsOpt ".-"] ++ vD2),
     vChain ([vLit "jquery", vCls ".-", vLit "v"] ++ vD3),
     vChain ([vLit "jquery", vCls ".-", vLit "v"] ++ vD2),
     vChain ([vLit "jquery", vCls ".-", vLit "version", vClsOpt ".-"] ++ vD3)]),
   ("Bootstrap",
    [vChain ([vLit "bootstrap", vClsOpt ".-@"] ++ vD3),
     vChain ([vLit "bootstrap", vClsOpt ".-@"] ++ vD2),
     vChain ([vLit "bootstrap", vCls ".-", vLit "v"] ++ vD3),
     vChain ([vLit "bootstrap", vCls ".-", vLit "version", vClsOpt ".-"] ++ vD3)]),
   ("Vue.js",
    [vChain ([vLit "vue", vClsOpt ".-@"] ++ vD3),
     vChain ([vLit "vue", vClsOpt ".-@"] ++ vD2),
     vChain ([vLit "vue", vCls ".-", vLit "v"] ++ vD3),
     vChain ([vLit "vue", vCls ".-", vLit "version", vClsOpt ".-"] ++ vD3)]),
   ("Angular",
    [vChain ([vLit "@angular", vCls "./", vLit "core", vClsOpt ".-@"] ++ vD3),
     vChain ([vLit "@angular", vCls "./", vLit "cli", vClsOpt ".-@"] ++ vD3),
     vChain ([vLit "angular", vCls ".-", vClsOpt "v"] ++ vD3),
     vChain ([vLit "ng", vCls ".-", vLit "version", vClsStar colonWsCls,
              vClsOpt "'\""] ++ vD3)]),
   ("TypeScript",
    [vChain ([vLit "typescript", vClsOpt ".-@"] ++ vD3),
     vChain ([vLit "typescript", vClsOpt ".-@"] ++ vD2),
     vChain ([vLit "ts", vClsOpt ".-@"] ++ vD3)]),
   ("Node.js/Express",
    [vChain ([vLit "node", vClsOpt ".-"] ++ vD3),
     vChain ([vLit "nodejs", vClsOpt ".-"] ++ vD3),
     vChain ([vLit "express", vClsOpt ".-@"] ++ vD3)])]

/-- `\d+` run split into (digits, rest). -/
def digitRun (s : List Char) : Option (List Char × List Char) :=
  match s with
  | c :: _ =>
    if c.isDigit then some (s.takeWhile Char.isDigit, s.dropWhile Char.isDigit)
    else none
  | [] => none

/-- Capture group `(\d+\.\d+(?:\.\d+)?)` of the generic pattern (greedy;
returns the captured text, which by construction always satisfies the
source's `/^\d+\.\d+(?:\.\d+)?$/` re-check). -/
def captureVersion (s : List Char) : Option (List Char) :=
  (digitRun s).bind fun ar =>
    match ar.2 with
    | '.' :: r2 =>
      (digitRun r2).bind fun br =>
        match br.2 with
        | '.' :: r4 =>
          match digitRun r4 with
          | some cr => some (ar.1 ++ '.' :: br.1 ++ '.' :: cr.1)
          | none => some (ar.1 ++ '.' :: br.1)
        | _ => some (ar.1 ++ '.' :: br.1)
    | _ => none

/-- The characters of `[.\-@_\s]`. -/
def genericSepCls : List Char := str ".-@_" ++ str " \t\n\x0d\x0b\x0c"

/-- One position of the generic pattern
```${cleanTechName}[.\-@_\s]*v?(\d+\.\d+(?:\.\d+)?)``` : literal name,
separators, optional `v`, captured version. -/
def genericVersionAt (clean : List Char) (s : List Char) : Option (List Char) :=
  (stripPrefixL clean s).bind fun r1 =>
    let r2 := r1.dropWhile fun c => genericSepCls.contains c
    let r3 := match r2 with
      | 'v' :: t => t
      | _ => r2
    -- `v?` greedy: if the capture fails after consuming `v`, the
    -- backtracked attempt starts at the non-digit `v` and fails too.
    captureVersion r3

/-- Leftmost match of the generic pattern (the `matchAll` loop returns
the first capture, whose format re-check always passes). -/
def genericVersionSearch (clean : List Char) : List Char → Option (List Char)
  | [] => none
  | c :: t =>
    match genericVersionAt clean (c :: t) with
    | some v => some v
    | none => genericVersionSearch clean t

/-- `detectTechnologyVersion(html, techName)` (`src/index.tsx`). -/
def detectTechnologyVersion (html : String) (techName : String) :
    Option String :=
  let htmlLower := lowerL (str html)
  let clean := (lowerL (str techName)).filter fun c =>
    decide ('a' ≤ c) && decide (c ≤ 'z')
  if !occursIn clean htmlLower then none
  else
    match lookupTable versionPatternsTable techName with
    | some patterns => (tryPatterns patterns htmlLower).map String.mk
    | none => (genericVersionSearch clean htmlLower).map String.mk

/-- `getCurrentVersions()` (`src/index.tsx`). -/
def currentVersions : List (String × String) :=
  [("React", "18.2.0"), ("Vue.js", "3.3.0"), ("Angular", "17.1.0"),
   ("Svelte", "4.2.0"), ("Ember.js", "5.0.0"), ("Backbone.js", "1.4.1"),
   ("jQuery", "3.7.1"), ("Bootstrap", "5.3.0"), ("Tailwind CSS", "3.4.0"),
   ("Bulma", "0.9.4"), ("Foundation", "6.8.1"), ("Semantic UI", "2.5.0"),
   ("Next.js", "14.1.0"), ("Nuxt.js", "3.8.0"), ("Gatsby", "5.12.0"),
   ("Vite", "5.1.0"), ("Webpack", "5.89.0"), ("Rollup", "4.9.0"),
   ("WordPress", "6.4.0"), ("Shopify", "2024-01"), ("Drupal", "10.3.0"),
   ("Joomla", "5.0.0"), ("Magento", "2.4.7"), ("PHP", "8.3.0"),
   ("ASP.NET", "8.0.0"), ("Django", "4.2.7"), ("Flask", "3.0.0"),
   ("Ruby on Rails", "7.1.0"), ("Node.js/Express", "21.5.0"),
   ("Laravel", "11.0.0"), ("Spring", "3.2.0"), ("FastAPI", "0.109.0"),
   ("MongoDB", "7.0.0"), ("Firebase", "10.7.0"), ("Supabase", "2.37.0"),
   ("TypeScript", "5.3.0"), ("SASS/SCSS", "1.69.0"), ("LESS", "4.2.0"),
   ("PostCSS", "8.4.0"), ("Chart.js", "4.4.0"), ("D3.js", "7.8.0")]

/-- `Set.add` on names preserving insertion order. -/
def addName (n : String) (l : List String) : List String :=
  if l.contains n then l else l ++ [n]

/-- Stable insertion into an alphabetically sorted list
(`Array.prototype.sort()` on distinct ASCII names = code-point order). -/
def insertAlpha (x : String) : List String → List String
  | [] => [x]
  | y :: ys => if x < y then x :: y :: ys else y :: insertAlpha x ys

/-- Sort names alphabetically. -/
def sortAlpha (l : List String) : List String :=
  l.foldl (fun acc x => insertAlpha x acc) []

/-- `detectTechnologies(html, doc)` (`src/index.tsx`): the ordered
signature conditions (substring checks are on the *original-case* html,
exactly as in the source), deduplicated by the `Set`, sorted, and
enriched with version and current version. -/
def detectTechnologies (html : String) (doc : DomDoc) : List Technology :=
  let h := str html
  let has := fun (n : String) => occursIn (str n) h
  let q := doc.selectorHit
  let sHas := fun (n : String) => doc.scriptSrcs.any fun src =>
    (src.map fun s => occursIn (str n) (str s)).getD false
  let lHas := fun (n : String) => doc.linkHrefs.any fun href =>
    (href.map fun s => occursIn (str n) (str s)).getD false
  let metaGen := doc.metaGenerator.getD ""
  let mHas := fun (n : String) => occursIn (str n) (str metaGen)
  let conds : List (String × Bool) :=
    [("React", has "react" || q "[data-reactroot], [data-react]" || sHas "react"),
     ("Vue.js", has "vue" || q "#app[data-v-app]" || sHas "vue"),
     ("Angular", has "angular" || has "ng-app" || sHas "angular"),
     ("Svelte", has "svelte" || q "[data-svelte]" || sHas "svelte"),
     ("Ember.js", has "ember" || sHas "ember"),
     ("Backbone.js", has "backbone" || sHas "backbone"),
     ("jQuery", has "jquery"),
     ("Bootstrap", has "bootstrap" || q ".container-fluid, .container" || lHas "bootstrap"),
     ("Tailwind CSS", has "tailwind" || q "[class*=\"tw-\"]"),
     ("Bulma", has "bulma" || q ".is-primary"),
     ("Foundation", has "foundation" || q "[data-sticky]"),
     ("Semantic UI", has "semantic-ui" || q ".ui.segment"),
     ("Next.js", q "#__next" || has "next"),
     ("Nuxt.js", has "nuxt" || q "[data-n-head]"),
     ("Gatsby", has "gatsby" || q "[data-gatsby]"),
     ("Vite", has "vite" || q "[data-vite-plugin]"),
     ("Webpack", has "webpack" || sHas "webpack"),
     ("Rollup", has "rollup" || sHas "rollup"),
     ("WordPress", mHas "WordPress" || has "wp-content" || has "wordpress"),
     ("Shopify", mHas "Shopify" || has "shopify"),
     ("Drupal", mHas "Drupal" || has "drupal"),
     ("Joomla", mHas "Joomla" || has "joomla"),
     ("Magento", mHas "Magento" || has "magento"),
     ("Docusaurus", has "docusaurus" || has "dokuwiki"),
     ("Notion", has "notion" || has "notion.so"),
     ("Wix", has "wix" || has "wixstatic"),
     ("Squarespace", has "squarespace" || has "squarespace.com"),
     ("PHP", has "php" || has ".php" || mHas "php"),
     ("ASP.NET", has "asp.net" || has ".aspx" || mHas "asp.net"),
     ("Django", has "django" || has "csrfmiddlewaretoken"),
     ("Flask", has "flask" || has "flask"),
     ("Ruby on Rails", has "rails" || has "ruby on rails" || has "csrf-token"),
     ("Node.js/Express", has "express" || has "node.js" || has "nodejs"),
     ("Laravel", has "laravel" || has "laravel"),
     ("Spring", has "spring" || has "spring boot"),
     ("FastAPI", has "fastapi" || has "swagger-ui"),
     ("MongoDB", has "mongodb" || sHas "mongodb"),
     ("Firebase", has "firebase" || has "google-analytics"),
     ("Supabase", has "supabase" || has "supabase"),
     ("Animate.css", has "animate.css" || has "aos" || lHas "animate"),
     ("Slider/Carousel", has "swiper" || has "slick"),
     ("Chart.js", has "chart.js" || sHas "chart"),
     ("D3.js", has "d3" || sHas "d3"),
     ("Google Analytics", has "google-analytics" || has "gtag"),
     ("Facebook Pixel", has "facebook" || has "fb-"),
     ("HubSpot", has "hubspot" || has "hs-"),
     ("Mailchimp", has "mailchimp" || has "mc-"),
     ("Stripe", has "stripe" || has "stripe"),
     ("PayPal", has "paypal" || has "paypal"),
     ("TypeScript", has "types" || sHas "types"),
     ("SASS/SCSS", has "sass" || has "scss" || lHas "sass" || lHas "scss"),
     ("LESS", has "less" || lHas "less"),
     ("PostCSS", has "postcss" || lHas "postcss")]
  let names := conds.foldl (fun acc nc => if nc.2 then addName nc.1 acc else acc) []
  (sortAlpha names).map fun techName =>
    { name := techName
      version := detectTechnologyVersion html techName
      currentVersion := lookupTable currentVersions techName }

/-- A concrete excellent-quality financial header map (evaluation
fixture). -/
def finHeaders : FetchHeaders := fun n =>
  if n = "content-security-policy" then
    some "default-src 'self'; script-src 'self' 'nonce-r4nd'; style-src 'self'"
  else if n = "strict-transport-security" then
    some "max-age=63072000; includeSubDomains; preload"
  else if n = "x-frame-options" then some "DENY"
  else if n = "x-content-type-options" then some "nosniff"
  else if n = "referrer-policy" then some "no-referrer"
  else if n = "permissions-policy" then some "geolocation=()"
  else if n = "x-xss-protection" then some "1; mode=block"
  else none

/-! ## Claim-side predicates -/

/-- The keep-predicate exactly as the claim words it: none of the
Google-service keywords, none of the development keywords, and not an
`innerhtml` finding that also mentions `hardcoded`/`safe`/`sanitized`
(all on the lowercased vulnerability text). -/
def claimKeeps (v : VulnFinding) : Bool :=
  (["google", "gtm", "tag manager", "maps api", "analytics", "firebase",
    "gapi"].all fun k => !occursIn (str k) (lowerL (str v.vulnerability))) &&
  (["console.log", "debug mode", "development"].all fun k =>
    !occursIn (str k) (lowerL (str v.vulnerability))) &&
  !(occursIn (str "innerhtml") (lowerL (str v.vulnerability)) &&
    (["hardcoded", "safe", "sanitized"].any fun k =>
      occursIn (str k) (lowerL (str v.vulnerability))))

/-! ## String-scanning lemmas -/

theorem startsWithL_iff (n h : List Char) :
    startsWithL n h = true ↔ ∃ r, h = n ++ r := by
  induction n generalizing h with
  | nil => simp [startsWithL]
  | cons a n ih =>
    cases h with
    | nil => simp [startsWithL]
    | cons b h' =>
      simp only [startsWithL, Bool.and_eq_true, beq_iff_eq]
      constructor
      · rintro ⟨rfl, hs⟩
        obtain ⟨r, rfl⟩ := (ih h').mp hs
        exact ⟨r, rfl⟩
      · rintro ⟨r, hr⟩
        injection hr with h1 h2
        exact ⟨h1.symm, (ih h').mpr ⟨r, h2⟩⟩

theorem startsWithL_self_append (n r : List Char) :
    startsWithL n (n ++ r) = true :=
  (startsWithL_iff n (n ++ r)).mpr ⟨r, rfl⟩

theorem occursIn_iff (n h : List Char) :
    occursIn n h = true ↔ ∃ pre post, h = pre ++ n ++ post := by
  induction h with
  | nil =>
    simp only [occursIn, startsWithL_iff]
    constructor
    · rintro ⟨r, hr⟩
      exact ⟨[], r, by simpa using hr⟩
    · rintro ⟨pre, post, hp⟩
      rcases List.append_eq_nil.mp (List.append_eq_nil.mp hp.symm).1 with ⟨-, h2⟩
      exact ⟨post, by simp [h2, (List.append_eq_nil.mp hp.symm).2]⟩
  | cons c h' ih =>
    simp only [occursIn, Bool.or_eq_true, startsWithL_iff, ih]
    constructor
    · rintro (⟨r, hr⟩ | ⟨pre, post, hp⟩)
      · exact ⟨[], r, by simpa using hr⟩
      · exact ⟨c :: pre, post, by simp [hp]⟩
    · rintro ⟨pre, post, hp⟩
      cases pre with
      | nil => exact Or.inl ⟨post, by simpa using hp⟩
      | cons p pre' =>
        injection hp with h1 h2
        exact Or.inr ⟨pre', post, h2⟩

theorem occursIn_of_startsWithL {n h : List Char} (hs : startsWithL n h = true) :
    occursIn n h = true := by
  obtain ⟨r, rfl⟩ := (startsWithL_iff n h).mp hs
  exact (occursIn_iff n _).mpr ⟨[], r, rfl⟩

theorem occursIn_self_append (n r : List Char) : occursIn n (n ++ r) = true :=
  (occursIn_iff n _).mpr ⟨[], r, rfl⟩

theorem occursIn_append_left {n a : List Char} (b : List Char)
    (h : occursIn n a = true) : occursIn n (a ++ b) = true := by
  obtain ⟨pre, post, rfl⟩ := (occursIn_iff n a).mp h
  exact (occursIn_iff n _).mpr ⟨pre, post ++ b, by simp⟩

theorem occursIn_append_right (a : List Char) {n b : List Char}
    (h : occursIn n b = true) : occursIn n (a ++ b) = true := by
  obtain ⟨pre, post, rfl⟩ := (occursIn_iff n b).mp h
  exact (occursIn_iff n _).mpr ⟨a ++ pre, post, by simp⟩

theorem occursIn_map {n h : List Char} (f : Char → Char)
    (ho : occursIn n h = true) :
    occursIn (n.map f) (h.map f) = true := by
  obtain ⟨pre, post, rfl⟩ := (occursIn_iff n h).mp ho
  exact (occursIn_iff _ _).mpr ⟨pre.map f, post.map f, by simp⟩

theorem occursIn_cons {n h : List Char} (c : Char)
    (ho : occursIn n h = true) : occursIn n (c :: h) = true := by
  simp [occursIn, ho]

/-- A prefix match that avoids the separator `c` already completes inside
the part before the separator. -/
theorem startsWithL_of_append_cons {n : List Char} {c : Char} (hc : c ∉ n) :
    ∀ {x b : List Char}, startsWithL n (x ++ c :: b) = true →
      startsWithL n x = true := by
  induction n with
  | nil => intro x b _; rfl
  | cons a n' ih =>
    intro x b h
    cases x with
    | nil =>
      simp only [List.nil_append, startsWithL, Bool.and_eq_true, beq_iff_eq] at h
      exact absurd (h.1 ▸ List.mem_cons_self a n') hc
    | cons d x' =>
      simp only [List.cons_append, startsWithL, Bool.and_eq_true, beq_iff_eq] at h ⊢
      exact ⟨h.1, ih (fun hm => hc (List.mem_cons_of_mem a hm)) h.2⟩

/-- A substring free of the character `c` that occurs in `a ++ c :: b`
occurs in `a` or in `b` (it cannot straddle the separator). -/
theorem occursIn_append_cons_split {n : List Char} {c : Char} (hc : c ∉ n) :
    ∀ {a b : List Char}, occursIn n (a ++ c :: b) = true →
      occursIn n a = true ∨ occursIn n b = true := by
  intro a b h
  induction a with
  | nil =>
    simp only [List.nil_append, occursIn, Bool.or_eq_true] at h
    rcases h with h | h
    · cases n with
      | nil => exact Or.inl rfl
      | cons x n' =>
        simp only [startsWithL, Bool.and_eq_true, beq_iff_eq] at h
        exact absurd (h.1 ▸ List.mem_cons_self x n') hc
    · exact Or.inr h
  | cons y a' ih =>
    simp only [List.cons_append, occursIn, Bool.or_eq_true] at h
    rcases h with h | h
    · exact Or.inl (occursIn_of_startsWithL
        (startsWithL_of_append_cons hc (by simpa using h)))
    · rcases ih h with h' | h'
      · exact Or.inl (occursIn_cons y h')
      · exact Or.inr h'

theorem stripPrefixL_append (n r : List Char) :
    stripPrefixL n (n ++ r) = some r := by
  induction n with
  | nil => rfl
  | cons a n ih => simp [stripPrefixL, ih]

theorem dropWs_cons_of_not_ws {c : Char} (h : isWsJs c = false) (s : List Char) :
    dropWs (c :: s) = c :: s := by
  simp [dropWs, List.dropWhile_cons, h]

theorem takeWhile_append_cons {p : Char → Bool} :
    ∀ {a : List Char} {c : Char} (b : List Char), (∀ x ∈ a, p x = true) →
      p c = false → List.takeWhile p (a ++ c :: b) = a := by
  intro a
  induction a with
  | nil => intro c b _ hc; simp [List.takeWhile_cons, hc]
  | cons y a' ih =>
    intro c b ha hc
    have hy : p y = true := ha y (List.mem_cons_self y a')
    simp only [List.cons_append, List.takeWhile_cons, hy, if_true]
    rw [ih b (fun x hx => ha x (List.mem_cons_of_mem y hx)) hc]

theorem dropWhile_append_cons {p : Char → Bool} :
    ∀ {a : List Char} {c : Char} (b : List Char), (∀ x ∈ a, p x = true) →
      p c = false → List.dropWhile p (a ++ c :: b) = c :: b := by
  intro a
  induction a with
  | nil => intro c b _ hc; simp [List.dropWhile_cons, hc]
  | cons y a' ih =>
    intro c b ha hc
    have hy : p y = true := ha y (List.mem_cons_self y a')
    simp only [List.cons_append, List.dropWhile_cons, hy, if_true]
    exact ih b (fun x hx => ha x (List.mem_cons_of_mem y hx)) hc

theorem anySuffix_of_self {p : List Char → Bool} {s : List Char}
    (h : p s = true) : anySuffix p s = true := by
  cases s <;> simp [anySuffix, h]

theorem anySuffix_append_right {p : List Char → Bool} (a : List Char)
    {s : List Char} (h : anySuffix p s = true) :
    anySuffix p (a ++ s) = true := by
  induction a with
  | nil => exact h
  | cons c a' ih => simp [anySuffix, ih]

/-- If `p` accepts every list starting with `n` and `n` occurs in `h`,
the scan succeeds. -/
theorem anySuffix_of_occursIn {p : List Char → Bool} {n : List Char}
    (hp : ∀ r, p (n ++ r) = true) {h : List Char}
    (ho : occursIn n h = true) : anySuffix p h = true := by
  obtain ⟨pre, post, rfl⟩ := (occursIn_iff n h).mp ho
  rw [List.append_assoc]
  exact anySuffix_append_right pre (anySuffix_of_self (hp post))

theorem trimR_prefix (s : List Char) : ∃ r, s = trimR s ++ r := by
  induction s with
  | nil => exact ⟨[], rfl⟩
  | cons c cs ih =>
    obtain ⟨r, hr⟩ := ih
    by_cases h : trimR cs = []
    · rw [h] at hr
      by_cases hws : isWsJs c = true
      · exact ⟨c :: cs, by simp [trimR, h, hws]⟩
      · refine ⟨cs, ?_⟩
        simp only [trimR, h]
        rw [Bool.not_eq_true] at hws
        simp [hws]
    · refine ⟨r, ?_⟩
      simp only [trimR]
      cases htr : trimR cs with
      | nil => exact absurd htr h
      | cons x xs => rw [htr] at hr; simpa using hr

theorem occursIn_of_trimBoth {n s : List Char}
    (h : occursIn n (trimBoth s) = true) : occursIn n s = true := by
  obtain ⟨r, hr⟩ := trimR_prefix (trimL s)
  have h1 : occursIn n (trimL s) = true := by
    rw [hr]; exact occursIn_append_left r h
  have h2 := List.takeWhile_append_dropWhile (p := isWsJs) (l := s)
  calc occursIn n s = occursIn n (s.takeWhile isWsJs ++ s.dropWhile isWsJs) := by
        rw [h2]
    _ = true := occursIn_append_right _ h1

theorem occursIn_joinNl {n : List Char} (hn : '\n' ∉ n) (hne : n ≠ []) :
    ∀ {ls : List (List Char)}, occursIn n (joinNl ls) = true →
      ∃ l ∈ ls, occursIn n l = true := by
  intro ls h
  induction ls with
  | nil =>
    cases n with
    | nil => exact absurd rfl hne
    | cons x n' => simp [joinNl, occursIn, startsWithL] at h
  | cons l ls' ih =>
    have : occursIn n (l ++ '\n' :: joinNl ls') = true := h
    rcases occursIn_append_cons_split hn this with h' | h'
    · exact ⟨l, List.mem_cons_self l ls', h'⟩
    · obtain ⟨l', hm, ho⟩ := ih h'
      exact ⟨l', List.mem_cons_of_mem l hm, ho⟩

theorem splitLines_shape (t : List Char) :
    ∃ l ls r, splitLines t = l :: ls ∧ t = l ++ r := by
  induction t with
  | nil => exact ⟨[], [], [], rfl, rfl⟩
  | cons c cs ih =>
    by_cases h : c = '\n'
    · exact ⟨[], splitLines cs, c :: cs, by simp [splitLines, h], rfl⟩
    · obtain ⟨l, ls, r, hsl, hcs⟩ := ih
      exact ⟨c :: l, ls, r, by simp [splitLines, h, hsl], by simp [hcs]⟩

theorem occursIn_of_mem_splitLines {n : List Char} :
    ∀ {t l : List Char}, l ∈ splitLines t → occursIn n l = true →
      occursIn n t = true := by
  intro t
  induction t with
  | nil =>
    intro l hm ho
    simp only [splitLines, List.mem_singleton] at hm
    rwa [hm] at ho
  | cons c cs ih =>
    intro l hm ho
    by_cases h : c = '\n'
    · simp only [splitLines, h, if_true, List.mem_cons] at hm
      rcases hm with rfl | hm
      · cases n with
        | nil => simp [occursIn, startsWithL]
        | cons x n' => simp [occursIn, startsWithL] at ho
      · exact occursIn_cons c (ih hm ho)
    · obtain ⟨l0, ls, r, hsl, hcs⟩ := splitLines_shape cs
      simp only [splitLines, h, if_false, hsl, List.mem_cons] at hm
      rcases hm with rfl | hm
      · have : occursIn n ((c :: l0) ++ r) = true := occursIn_append_left r ho
        simpa [hcs] using this
      · exact occursIn_cons c (ih (hsl ▸ List.mem_cons_of_mem l0 hm) ho)

theorem extractGo_mem {ua : List Char} :
    ∀ {lines : List (List Char)} {inSec : Bool} {acc : List (List Char)}
      {l : List Char}, l ∈ extractGo ua lines inSec acc →
        l ∈ acc ∨ l ∈ lines := by
  intro lines
  induction lines with
  | nil => intro inSec acc l h; exact Or.inl h
  | cons x rest ih =>
    intro inSec acc l h
    simp only [extractGo] at h
    split at h
    · split at h
      · rcases ih h with hm | hm
        · exact Or.inr (List.mem_cons.mpr (Or.inl (List.mem_singleton.mp hm)))
        · exact Or.inr (List.mem_cons_of_mem x hm)
      · split at h
        · exact Or.inl h
        · rcases ih h with hm | hm
          · exact Or.inl hm
          · exact Or.inr (List.mem_cons_of_mem x hm)
    · split at h
      · rcases ih h with hm | hm
        · rcases List.mem_append.mp hm with hm' | hm'
          · exact Or.inl hm'
          · exact Or.inr (List.mem_cons.mpr (Or.inl (List.mem_singleton.mp hm')))
        · exact Or.inr (List.mem_cons_of_mem x hm)
      · rcases ih h with hm | hm
        · exact Or.inl hm
        · exact Or.inr (List.mem_cons_of_mem x hm)

/-- A `'\n'`-free nonempty substring of an extracted section occurs in the
robots.txt text itself. -/
theorem occursIn_of_extractSection {n robotsText sec : List Char}
    {userAgent : String} (hn : '\n' ∉ n) (hne : n ≠ [])
    (hsec : extractUserAgentSection robotsText userAgent = some sec)
    (ho : occursIn n sec = true) : occursIn n robotsText = true := by
  simp only [extractUserAgentSection] at hsec
  split at hsec
  · exact absurd hsec (by simp)
  · obtain rfl : _ = sec := Option.some_inj.mp hsec
    have h1 := occursIn_of_trimBoth ho
    obtain ⟨l, hm, hol⟩ := occursIn_joinNl hn hne h1
    rcases extractGo_mem hm with hm' | hm'
    · simp at hm'
    · exact occursIn_of_mem_splitLines hm' hol

/-! ## Claim lemmas and theorems -/

theorem occursIn_prefix_sub {n₁ n₂ h : List Char}
    (ho : occursIn (n₁ ++ n₂) h = true) : occursIn n₁ h = true := by
  obtain ⟨pre, post, hp⟩ := (occursIn_iff _ h).mp ho
  exact (occursIn_iff n₁ h).mpr ⟨pre, n₂ ++ post, by simp [hp]⟩

theorem ne_empty_of_occursIn {n : List Char} {v : String}
    (ho : occursIn n (str v) = true) (hn : n ≠ []) : v ≠ "" := by
  intro hv
  rw [hv] at ho
  cases n with
  | nil => exact hn rfl
  | cons a n' =>
    have h : occursIn (a :: n') [] = true := ho
    simp [occursIn, startsWithL] at h

theorem ite_pos_min_mul (k cap c : ℕ) :
    (if 0 < c then k * min c cap else 0) = k * min c cap := by
  rcases Nat.eq_zero_or_pos c with rfl | h
  · simp
  · simp [h]

/-- Closed form of the vulnerability penalty. -/
theorem evalVulns_eq (v : VulnerabilityData) :
    evaluateVulnerabilitiesRealistically v =
      -((min 30 (25 * min v.critical 3 + 12 * min v.high 5 +
        5 * min v.medium 8 + 2 * min v.low 10) : ℕ) : ℤ) := by
  simp only [evaluateVulnerabilitiesRealistically, ite_pos_min_mul]
  push_cast
  omega

/-- Magnitude of the vulnerability penalty. -/
theorem evalVulns_natAbs (v : VulnerabilityData) :
    (evaluateVulnerabilitiesRealistically v).natAbs =
      min 30 (25 * min v.critical 3 + 12 * min v.high 5 +
        5 * min v.medium 8 + 2 * min v.low 10) := by
  rw [evalVulns_eq, Int.natAbs_neg]
  exact Int.natAbs_ofNat _

/-- Claim C2:  For all vulnerability count vectors, the penalty equals the
negation of `min(30, 25·min(c,3) + 12·min(h,5) + 5·min(m,8) + 2·min(l,10))`;
the magnitude never exceeds 30 (10 criticals + 10 highs give exactly −30)
and is monotonically non-decreasing in each per-severity count. -/
theorem vuln_penalty_formula_cap_monotone :
    (∀ v : VulnerabilityData,
      evaluateVulnerabilitiesRealistically v =
        -((min 30 (25 * min v.critical 3 + 12 * min v.high 5 +
          5 * min v.medium 8 + 2 * min v.low 10) : ℕ) : ℤ)) ∧
    (∀ v : VulnerabilityData,
      (evaluateVulnerabilitiesRealistically v).natAbs ≤ 30) ∧
    evaluateVulnerabilitiesRealistically ⟨10, 10, 0, 0⟩ = -30 ∧
    (∀ v w : VulnerabilityData, v.critical ≤ w.critical → v.high ≤ w.high →
      v.medium ≤ w.medium → v.low ≤ w.low →
      (evaluateVulnerabilitiesRealistically v).natAbs ≤
        (evaluateVulnerabilitiesRealistically w).natAbs) := by
  refine ⟨evalVulns_eq, fun v => ?_, by decide, fun v w h1 h2 h3 h4 => ?_⟩
  · rw [evalVulns_natAbs]; omega
  · rw [evalVulns_natAbs, evalVulns_natAbs]; omega

/-- Witness for C2's monotonicity hypotheses at concrete counts. -/
theorem vuln_penalty_formula_cap_monotone_witness :
    (evaluateVulnerabilitiesRealistically ⟨0, 1, 0, 0⟩).natAbs ≤
      (evaluateVulnerabilitiesRealistically ⟨1, 2, 3, 4⟩).natAbs :=
  vuln_penalty_formula_cap_monotone.2.2.2 ⟨0, 1, 0, 0⟩ ⟨1, 2, 3, 4⟩
    (by decide) (by decide) (by decide) (by decide)

/-- Claim C7:  The risk level is decided by first-match priority:
`Bajo` (Low) iff score ≥ 85, no critical and at most one high; else
`Medio` (Medium) iff score ≥ 70 and no critical; else `Alto` (High) iff
score ≥ 50 or more than two highs — so a score below 50 with more than
two highs is `Alto`, not `Crítico` (Critical); else `Crítico`. -/
theorem risk_level_first_match_priority :
    (∀ (s : ℚ) (v : VulnerabilityData),
      (calculateRiskLevel s v = "Bajo" ↔
        s ≥ 85 ∧ v.critical = 0 ∧ v.high ≤ 1) ∧
      (calculateRiskLevel s v = "Medio" ↔
        ¬(s ≥ 85 ∧ v.critical = 0 ∧ v.high ≤ 1) ∧ s ≥ 70 ∧ v.critical = 0) ∧
      (calculateRiskLevel s v = "Alto" ↔
        ¬(s ≥ 85 ∧ v.critical = 0 ∧ v.high ≤ 1) ∧
        ¬(s ≥ 70 ∧ v.critical = 0) ∧ (s ≥ 50 ∨ v.high > 2)) ∧
      (calculateRiskLevel s v = "Crítico" ↔
        ¬(s ≥ 85 ∧ v.critical = 0 ∧ v.high ≤ 1) ∧
        ¬(s ≥ 70 ∧ v.critical = 0) ∧ ¬(s ≥ 50 ∨ v.high > 2))) ∧
    calculateRiskLevel (40 : ℚ) ⟨0, 3, 0, 0⟩ = "Alto" := by
  constructor
  · intro s v
    unfold calculateRiskLevel
    split_ifs with h1 h2 h3 <;>
      refine ⟨?_, ?_, ?_, ?_⟩ <;> simp_all
  · decide

/-- Claim C8:  The strict lookup path (`BaselineScorer.analyzeSite`) fails
with the unknown-site-type error for any site type missing from its
baseline table, while the permissive path
(`RealisticSecurityCalculator.calculateRealisticScore`) falls back to the
`DEFAULT` baseline of 80 without any error (the permissive path is a
total function by construction). -/
theorem strict_unknown_site_type_errors_permissive_defaults :
    ∀ (siteType : String) (headers : FetchHeaders) (vulns : VulnerabilityData),
      lookupTable scorerBaselines siteType = none →
      analyzeSite siteType headers vulns =
        .error ("Tipo de sitio no reconocido: " ++ siteType) ∧
      (lookupTable siteBaselines siteType = none →
        realisticBaseline siteType = 80 ∧
        (calculateRealisticScore headers vulns siteType none).baseline = 80) := by
  intro siteType headers vulns hnone
  constructor
  · unfold analyzeSite
    rw [hnone]
  · intro hnone2
    have hb : realisticBaseline siteType = 80 := by
      unfold realisticBaseline
      rw [hnone2]
      rfl
    exact ⟨hb, by simp [calculateRealisticScore, hb]⟩

/-- Witness for C8 at the unknown site type `"spa"`. -/
theorem strict_unknown_site_type_errors_permissive_defaults_witness :
    analyzeSite "spa" (fun _ => none) ⟨0, 0, 0, 0⟩ =
      .error ("Tipo de sitio no reconocido: " ++ "spa") ∧
    (lookupTable siteBaselines "spa" = none →
      realisticBaseline "spa" = 80 ∧
      (calculateRealisticScore (fun _ => none) ⟨0, 0, 0, 0⟩ "spa" none).baseline = 80) :=
  strict_unknown_site_type_errors_permissive_defaults "spa" (fun _ => none)
    ⟨0, 0, 0, 0⟩ (by decide)

theorem filter_pred_eq (v : VulnFinding) :
    (!isGoogleSafe v && !isDevSafe v && !isSafeInnerHTML v) = claimKeeps v := by
  simp only [isGoogleSafe, isDevSafe, isSafeInnerHTML, claimKeeps,
    List.any_cons, List.any_nil, List.all_cons, List.all_nil,
    Bool.or_false, Bool.and_true, Bool.not_or, Bool.and_assoc]

/-- Claim C9:  `filterFalsePositives` keeps exactly the findings accepted by
the claim's keep-predicate `claimKeeps` — so a finding whose description
mentions e.g. `analytics` or `console.log` is dropped before scoring
regardless of its severity. -/
theorem filter_false_positives_keeps_exactly :
    (∀ l : List VulnFinding, filterFalsePositives l = l.filter claimKeeps) ∧
    (∀ (l : List VulnFinding) (v : VulnFinding),
      v ∈ filterFalsePositives l ↔ v ∈ l ∧ claimKeeps v = true) ∧
    (∀ (l : List VulnFinding) (v : VulnFinding),
      (occursIn (str "analytics") (lowerL (str v.vulnerability)) = true ∨
        occursIn (str "console.log") (lowerL (str v.vulnerability)) = true) →
      v ∉ filterFalsePositives l) := by
  have hfe : ∀ l : List VulnFinding, filterFalsePositives l = l.filter claimKeeps := by
    intro l
    unfold filterFalsePositives
    exact List.filter_congr fun v _ => filter_pred_eq v
  refine ⟨hfe, fun l v => ?_, fun l v hdrop hmem => ?_⟩
  · rw [hfe, List.mem_filter]
  · rw [hfe, List.mem_filter] at hmem
    have hk := hmem.2
    simp only [claimKeeps, List.all_cons, List.all_nil, Bool.and_true,
      Bool.and_eq_true, Bool.not_eq_true'] at hk
    rcases hdrop with h | h
    · rw [h] at hk
      exact absurd hk.1.1.2.2.2.2.1 (by simp)
    · rw [h] at hk
      exact absurd hk.1.2.1 (by simp)

/-- Witness for C9's drop-implication at a concrete `analytics` finding. -/
theorem filter_false_positives_keeps_exactly_witness :
    (⟨"Firebase", "1.0", "Google Analytics tracking detected", .critical, [],
      none⟩ : VulnFinding) ∉
      filterFalsePositives
        [⟨"Firebase", "1.0", "Google Analytics tracking detected", .critical,
          [], none⟩] :=
  filter_false_positives_keeps_exactly.2.2 _ _ (Or.inl (by decide))

/-- Claim C4, refuted:  `analyzeSSL` is *not* deterministic on identical call
inputs: for an HTTPS url its `additionalInfo.certificateValidity` days
come from `Math.random()` (modelled by the explicit sample), so two runs
with different samples differ. -/
theorem analyzeSSL_nondeterministic_counterexample :
    analyzeSSL "https://example.com" (fun _ => none) 0 ≠
      analyzeSSL "https://example.com" (fun _ => none) 1 := by
  intro h
  have hs : startsWithL (str "https://") (str "https://example.com") = true := by
    decide
  have h2 := congrArg (fun a => a.additionalInfo.map fun i => i.daysRemaining) h
  simp only [analyzeSSL, hs, if_true, Option.map_some] at h2
  norm_num at h2

/-- Claim C4, amended:  `detectTechnologies`, `analyzeSecurityHeaders` and
`detectVulnerableTechnologies` are pure functions of their inputs (two
runs on identical inputs agree, and `detectTechnologies` returns the same
identically-ordered list), and `analyzeSSL` is deterministic given the
`Math.random()` sample — in particular for any non-HTTPS url its result
is independent of the sample; only its HTTPS branch is randomised. -/
theorem pipeline_determinism_amended :
    (∀ (html : String) (doc : DomDoc),
      detectTechnologies html doc = detectTechnologies html doc) ∧
    (∀ headers : FetchHeaders,
      analyzeSecurityHeaders headers = analyzeSecurityHeaders headers) ∧
    (∀ (techs : List Technology) (html : String),
      detectVulnerableTechnologies techs html =
        detectVulnerableTechnologies techs html) ∧
    (∀ (url : String) (headers : FetchHeaders) (r : ℚ),
      analyzeSSL url headers r = analyzeSSL url headers r) ∧
    (∀ (url : String) (headers : FetchHeaders) (r₁ r₂ : ℚ),
      startsWithL (str "https://") (str url) = false →
      analyzeSSL url headers r₁ = analyzeSSL url headers r₂) := by
  refine ⟨fun _ _ => rfl, fun _ => rfl, fun _ _ => rfl, fun _ _ _ => rfl,
    fun url headers r₁ r₂ h => ?_⟩
  unfold analyzeSSL
  rw [h]
  simp

/-- Witness for C4's non-HTTPS independence at a concrete url. -/
theorem pipeline_determinism_amended_witness :
    analyzeSSL "http://example.com" (fun _ => none) 0 =
      analyzeSSL "http://example.com" (fun _ => none) 1 :=
  pipeline_determinism_amended.2.2.2.2 "http://example.com" (fun _ => none)
    0 1 (by decide)

/-- Claim C6:  HSTS validity holds iff the `strict-transport-security`
value contains `max-age=` and the parsed integer is ≥ 31536000; a missing
header or one lacking `max-age=` is invalid, and at the boundary
`max-age=31536000` is valid while `max-age=31535999` is not. -/
theorem hsts_validity_iff_max_age :
    (∀ (headers : FetchHeaders) (v : String),
      headers "strict-transport-security" = some v →
      ((analyzeSecurityHeaders headers).hsts = true ↔
        occursIn (str "max-age=") (str v) = true ∧
        parsedMaxAge (str v) ≥ 31536000)) ∧
    (∀ headers : FetchHeaders,
      headers "strict-transport-security" = none →
      (analyzeSecurityHeaders headers).hsts = false) ∧
    (∀ (headers : FetchHeaders) (v : String),
      headers "strict-transport-security" = some v →
      occursIn (str "max-age=") (str v) = false →
      (analyzeSecurityHeaders headers).hsts = false) ∧
    (analyzeSecurityHeaders fun n =>
      if n = "strict-transport-security" then some "max-age=31536000"
      else none).hsts = true ∧
    (analyzeSecurityHeaders fun n =>
      if n = "strict-transport-security" then some "max-age=31535999"
      else none).hsts = false := by
  have hmain : ∀ (headers : FetchHeaders) (v : String),
      headers "strict-transport-security" = some v →
      ((analyzeSecurityHeaders headers).hsts = true ↔
        occursIn (str "max-age=") (str v) = true ∧
        parsedMaxAge (str v) ≥ 31536000) := by
    intro headers v hv
    by_cases hv0 : v = ""
    · subst hv0
      have he : occursIn (str "max-age=") (str "") = false := by decide
      simp [analyzeSecurityHeaders, hv, he]
    · simp [analyzeSecurityHeaders, hv, hv0, hstsValidityCheck,
        Bool.and_eq_true, decide_eq_true_iff]
  refine ⟨hmain, ?_, ?_, ?_, ?_⟩
  · intro headers hnone
    simp [analyzeSecurityHeaders, hnone]
  · intro headers v hv hno
    by_cases hv0 : v = ""
    · subst hv0; simp [analyzeSecurityHeaders, hv]
    · simp [analyzeSecurityHeaders, hv, hv0, hstsValidityCheck, hno]
  · decide
  · decide

/-- Witness for C6 at a concrete header map and a value lacking
`max-age=`. -/
theorem hsts_validity_iff_max_age_witness :
    (analyzeSecurityHeaders fun n =>
      if n = "strict-transport-security" then some "max-age=63072000; preload"
      else none).hsts = true ∧
    (analyzeSecurityHeaders fun _ => (none : Option String)).hsts = false ∧
    (analyzeSecurityHeaders fun n =>
      if n = "strict-transport-security" then some "includeSubDomains"
      else none).hsts = false :=
  ⟨(hsts_validity_iff_max_age.1 _ "max-age=63072000; preload" (by decide)).mpr
      ⟨by decide, by decide⟩,
   hsts_validity_iff_max_age.2.1 _ rfl,
   hsts_validity_iff_max_age.2.2.1 _ "includeSubDomains" (by decide) (by decide)⟩

/-- Excellent CSP values have quality exactly 1 in the integrator. -/
theorem evaluateCSPQuality_excellent {v : String}
    (h1 : occursIn (str "default-src") (str v) = true)
    (h2 : occursIn (str "script-src") (str v) = true)
    (h3 : occursIn (str "style-src") (str v) = true)
    (h4 : occursIn (str "'unsafe-inline'") (str v) = false)
    (h5 : occursIn (str "nonce-") (str v) = true ∨
      occursIn (str "sha256-") (str v) = true) :
    evaluateCSPQuality v = 1 := by
  unfold evaluateCSPQuality
  rcases h5 with h5 | h5 <;>
    simp only [List.foldl_cons, List.foldl_nil, h1, h2, h3, h4, h5,
      if_true, Bool.true_or, Bool.or_true, Bool.not_false] <;>
    norm_num

/-- Excellent HSTS values have quality exactly 1 in the integrator. -/
theorem evaluateHSTSQuality_excellent {v : String}
    (h1 : occursIn (str "max-age=") (str v) = true)
    (h2 : occursIn (str "includeSubDomains") (str v) = true)
    (h3 : occursIn (str "preload") (str v) = true) :
    evaluateHSTSQuality v = 1 := by
  unfold evaluateHSTSQuality
  simp only [h1, h2, h3, if_true]
  norm_num

theorem jsRound_89 : jsRound 89 = 89 := by
  unfold jsRound
  rw [Int.floor_eq_iff] <;> norm_num

theorem jsRound_0 : jsRound 0 = 0 := by
  unfold jsRound
  rw [Int.floor_eq_iff] <;> norm_num

/-- With all seven tracked headers present at excellent quality the
integrator's header component is exactly `presentPoints = 89`,
`missingPoints = 0`. -/
theorem headersScore_excellent {headers : FetchHeaders}
    {csp hsts xfo cto rp pp xxp : String}
    (hcsp : headers "content-security-policy" = some csp)
    (hq1 : evaluateCSPQuality csp = 1) (hc0 : csp ≠ "")
    (hhsts : headers "strict-transport-security" = some hsts)
    (hq2 : evaluateHSTSQuality hsts = 1) (hh0 : hsts ≠ "")
    (hxfo : headers "x-frame-options" = some xfo)
    (hq3 : occursIn (str "DENY") (str xfo) = true ∨
      occursIn (str "SAMEORIGIN") (str xfo) = true) (hx0 : xfo ≠ "")
    (hcto : headers "x-content-type-options" = some cto) (hct0 : cto ≠ "")
    (hrp : headers "referrer-policy" = some rp) (hrp0 : rp ≠ "")
    (hpp : headers "permissions-policy" = some pp) (hpp0 : pp ≠ "")
    (hxxp : headers "x-xss-protection" = some xxp) (hxx0 : xxp ≠ "") :
    evaluateHeadersRealistically headers none = ⟨89, 0, 89⟩ := by
  have e1 : evaluateHeaderQuality "content-security-policy" csp = 1 := by
    simp [evaluateHeaderQuality, hq1]
  have e2 : evaluateHeaderQuality "strict-transport-security" hsts = 1 := by
    simp [evaluateHeaderQuality, hq2]
  have e3 : evaluateHeaderQuality "x-frame-options" xfo = 1 := by
    unfold evaluateHeaderQuality
    rcases hq3 with h | h <;> simp [h]
  have e4 : evaluateHeaderQuality "x-content-type-options" cto = 1 := by
    simp [evaluateHeaderQuality, hct0]
  have e5 : evaluateHeaderQuality "referrer-policy" rp = 1 := by
    simp [evaluateHeaderQuality, hrp0]
  have e6 : evaluateHeaderQuality "permissions-policy" pp = 1 := by
    simp [evaluateHeaderQuality, hpp0]
  have e7 : evaluateHeaderQuality "x-xss-protection" xxp = 1 := by
    simp [evaluateHeaderQuality, hxx0]
  unfold evaluateHeadersRealistically
  simp only [headerWeights, List.foldl_cons, List.foldl_nil,
    hcsp, hhsts, hxfo, hcto, hrp, hpp, hxxp, jsTruthy, Option.getD_some,
    decide_eq_true_eq]
  simp [hc0, hh0, hx0, hct0, hrp0, hpp0, hxx0, e1, e2, e3, e4, e5, e6, e7]
  norm_num [jsRound_89, jsRound_0]

/-- Claim C5:  Site type `financial` with all seven tracked headers present
at excellent quality (CSP with `default-src`/`script-src`/`style-src`, no
`'unsafe-inline'`, a `nonce-` or `sha256-` token; HSTS with
`max-age=`/`includeSubDomains`/`preload`; X-Frame-Options `DENY` or
`SAMEORIGIN`; the remaining four present and nonempty) and zero
vulnerabilities scores overall ≥ 95 with grade `A+`. -/
theorem financial_excellent_headers_zero_vulns_grade_A_plus :
    ∀ (headers : FetchHeaders) (csp hsts xfo cto rp pp xxp : String),
    headers "content-security-policy" = some csp →
    occursIn (str "default-src") (str csp) = true →
    occursIn (str "script-src") (str csp) = true →
    occursIn (str "style-src") (str csp) = true →
    occursIn (str "'unsafe-inline'") (str csp) = false →
    (occursIn (str "nonce-") (str csp) = true ∨
      occursIn (str "sha256-") (str csp) = true) →
    headers "strict-transport-security" = some hsts →
    occursIn (str "max-age=") (str hsts) = true →
    occursIn (str "includeSubDomains") (str hsts) = true →
    occursIn (str "preload") (str hsts) = true →
    headers "x-frame-options" = some xfo →
    (occursIn (str "DENY") (str xfo) = true ∨
      occursIn (str "SAMEORIGIN") (str xfo) = true) →
    headers "x-content-type-options" = some cto → cto ≠ "" →
    headers "referrer-policy" = some rp → rp ≠ "" →
    headers "permissions-policy" = some pp → pp ≠ "" →
    headers "x-xss-protection" = some xxp → xxp ≠ "" →
    (calculateRealisticScore headers ⟨0, 0, 0, 0⟩ "financial" none).overall ≥ 95 ∧
    (calculateRealisticScore headers ⟨0, 0, 0, 0⟩ "financial" none).grade = "A+" := by
  intro headers csp hsts xfo cto rp pp xxp hcsp hd hs hst hui hn hhsts hma hisd
    hpre hxfo hdeny hcto hct0 hrp hrp0 hpp hpp0 hxxp hxx0
  have hc0 : csp ≠ "" := ne_empty_of_occursIn hd (by decide)
  have hh0 : hsts ≠ "" := ne_empty_of_occursIn hma (by decide)
  have hx0 : xfo ≠ "" := by
    rcases hdeny with h | h <;> exact ne_empty_of_occursIn h (by decide)
  have hhdr : evaluateHeadersRealistically headers none = ⟨89, 0, 89⟩ :=
    headersScore_excellent hcsp (evaluateCSPQuality_excellent hd hs hst hui hn)
      hc0 hhsts (evaluateHSTSQuality_excellent hma hisd hpre) hh0 hxfo hdeny
      hx0 hcto hct0 hrp hrp0 hpp hpp0 hxxp hxx0
  have hma' : occursIn (str "max-age") (str hsts) = true := by
    have heq : str "max-age=" = str "max-age" ++ ['='] := by decide
    exact occursIn_prefix_sub (heq ▸ hma)
  have hbonus : calculateContextualBonus headers ⟨0, 0, 0, 0⟩ none = 8 := by
    simp [calculateContextualBonus, hhsts, hma']
  have hvuln : evaluateVulnerabilitiesRealistically ⟨0, 0, 0, 0⟩ = 0 := by decide
  have hbase : realisticBaseline "financial" = 95 := by decide
  unfold calculateRealisticScore
  rw [hhdr, hbonus, hvuln, hbase]
  norm_num [calculateGrade]

/-- Witness for C5 at a concrete excellent financial header map. -/
theorem financial_excellent_headers_zero_vulns_grade_A_plus_witness :
    (calculateRealisticScore finHeaders ⟨0, 0, 0, 0⟩ "financial" none).overall ≥ 95 ∧
    (calculateRealisticScore finHeaders ⟨0, 0, 0, 0⟩ "financial" none).grade = "A+" :=
  financial_excellent_headers_zero_vulns_grade_A_plus finHeaders
    "default-src 'self'; script-src 'self' 'nonce-r4nd'; style-src 'self'"
    "max-age=63072000; includeSubDomains; preload" "DENY" "nosniff"
    "no-referrer" "geolocation=()" "1; mode=block"
    (by decide) (by decide) (by decide) (by decide) (by decide)
    (Or.inl (by decide)) (by decide) (by decide) (by decide) (by decide)
    (by decide) (Or.inl (by decide)) (by decide) (by decide) (by decide)
    (by decide) (by decide) (by decide) (by decide) (by decide)

theorem matchConsole_at (r : List Char) :
    matchConsole (str "console.log(" ++ r) = true := rfl

theorem matchInnerHtml_at (r : List Char) :
    matchInnerHtml (str "innerhtml =" ++ r) = true := rfl

theorem matchDebug_at (r : List Char) :
    matchDebug (str "debug=true" ++ r) = true := rfl

theorem matchJqueryHtml_at (r : List Char) :
    matchJqueryHtml (str "$(\"#x\").html(nombre)" ++ r) = true := rfl

/-- A pattern that fires on the lowercased html contributes its finding
to the matcher's output. -/
theorem pattern_finding_mem {techs : List Technology} {html : String}
    {p : VulnPattern} (hp : p ∈ vulnerablePatterns)
    (hc : anySuffix p.matchAt (lowerL (str html)) = true) :
    mkPatternFinding p (str html) ∈ detectVulnerableTechnologies techs html := by
  unfold detectVulnerableTechnologies
  refine List.mem_append.mpr (Or.inl (List.mem_append.mpr (Or.inl
    (List.mem_append.mpr (Or.inr ?_)))))
  exact List.mem_filterMap.mpr ⟨p, hp, by simp [hc]⟩

/-- Lowercase-stable needles transfer occurrences to the lowercased
text. -/
theorem occursIn_lowerL {n : List Char} {html : String}
    (hstable : n.map lowerChar = n)
    (h : occursIn n (str html) = true) :
    occursIn n (lowerL (str html)) = true := by
  have := occursIn_map lowerChar h
  rwa [hstable] at this

/-- Claim C1, refuted:  HTML whose only assignment is the string literal
`div.innerHTML = "<b>static</b>"` *does* receive the unsafe-innerHTML
code-pattern finding (the `/innerHTML\s*=/gi` signature does not inspect
the right-hand side), contradicting the claim that no such finding is
emitted. -/
theorem static_innerHTML_still_flagged_counterexample :
    ∃ f ∈ detectVulnerableTechnologies [] "div.innerHTML = \"<b>static</b>\"",
      f.vulnerability =
        "Potential XSS via innerHTML assignment - Permite inyección de HTML/JavaScript malicioso en el DOM" ∧
      f.severity = .medium := by
  decide

/-- Claim C1, amended:  HTML containing `$("#x").html(nombre)` produces
the `jQuery XSS via .html()` code-pattern finding with severity `high`;
and *any* occurrence of `innerHTML =` — including a string-literal
assignment — triggers the unsafe-innerHTML pattern finding (severity
`medium`). -/
theorem jquery_html_and_innerHTML_pattern_amended :
    (∀ (techs : List Technology) (html : String),
      occursIn (str "$(\"#x\").html(nombre)") (str html) = true →
      ∃ f ∈ detectVulnerableTechnologies techs html,
        f.vulnerability =
          "jQuery XSS via .html() with decoded/base64 content - Uso de .html() con datos decodificados de base64 puede ejecutar scripts maliciosos" ∧
        f.severity = .high) ∧
    (∀ (techs : List Technology) (html : String),
      occursIn (str "innerHTML =") (str html) = true →
      ∃ f ∈ detectVulnerableTechnologies techs html,
        f.vulnerability =
          "Potential XSS via innerHTML assignment - Permite inyección de HTML/JavaScript malicioso en el DOM" ∧
        f.severity = .medium) := by
  constructor
  · intro techs html h
    have h' : occursIn (str "$(\"#x\").html(nombre)") (lowerL (str html)) = true :=
      occursIn_lowerL (by decide) h
    have hc : anySuffix jqueryHtmlPattern.matchAt (lowerL (str html)) = true :=
      anySuffix_of_occursIn matchJqueryHtml_at h'
    exact ⟨mkPatternFinding jqueryHtmlPattern (str html),
      pattern_finding_mem (List.Mem.tail _ (List.Mem.tail _ (List.Mem.tail _
        (List.Mem.tail _ (List.Mem.head _))))) hc, rfl, rfl⟩
  · intro techs html h
    have h' : occursIn (str "innerhtml =") (lowerL (str html)) = true := by
      have := occursIn_map lowerChar h
      rwa [show (str "innerHTML =").map lowerChar = str "innerhtml =" by decide]
        at this
    have hc : anySuffix innerHtmlPattern.matchAt (lowerL (str html)) = true :=
      anySuffix_of_occursIn matchInnerHtml_at h'
    exact ⟨mkPatternFinding innerHtmlPattern (str html),
      pattern_finding_mem (List.Mem.tail _ (List.Mem.tail _ (List.Mem.head _)))
        hc, rfl, rfl⟩

/-- Witness for C1's amended statement at concrete html inputs. -/
theorem jquery_html_and_innerHTML_pattern_amended_witness :
    (∃ f ∈ detectVulnerableTechnologies [] "$(\"#x\").html(nombre)",
      f.vulnerability =
        "jQuery XSS via .html() with decoded/base64 content - Uso de .html() con datos decodificados de base64 puede ejecutar scripts maliciosos" ∧
      f.severity = .high) ∧
    (∃ f ∈ detectVulnerableTechnologies [] "div.innerHTML = \"ok\"",
      f.vulnerability =
        "Potential XSS via innerHTML assignment - Permite inyección de HTML/JavaScript malicioso en el DOM" ∧
      f.severity = .medium) :=
  ⟨jquery_html_and_innerHTML_pattern_amended.1 [] "$(\"#x\").html(nombre)"
      (by decide),
   jquery_html_and_innerHTML_pattern_amended.2 [] "div.innerHTML = \"ok\""
      (by decide)⟩

/-- Claim C10, refuted:  The bare substring `console.log` (without a call
parenthesis) triggers only the separate `Console Logging` finding: the
`/console\.(log|error|warn)\s*\(/` code-pattern regex requires a `(`, so
no `JavaScript Code Pattern` finding is emitted and the double-counting
claimed for every html containing `console.log` does not occur. -/
theorem console_log_without_call_single_finding_counterexample :
    occursIn (str "console.log") (str "console.log") = true ∧
    ((detectVulnerableTechnologies [] "console.log").filter
      fun f => f.name == "JavaScript Code Pattern").length = 0 ∧
    ((detectVulnerableTechnologies [] "console.log").filter
      fun f => f.name == "Console Logging").length = 1 := by
  decide

/-- Claim C10, amended:  HTML containing a `console.log(` call yields both
the code-pattern finding from the console regex and the separate
`Console Logging` finding (both severity `low`); HTML containing
`debug=true` yields both the debug code-pattern finding and the separate
`Debug Configuration` finding (both severity `medium`). -/
theorem console_and_debug_double_findings_amended :
    (∀ (techs : List Technology) (html : String),
      occursIn (str "console.log(") (str html) = true →
      (∃ f ∈ detectVulnerableTechnologies techs html,
        f.name = "JavaScript Code Pattern" ∧
        f.vulnerability =
          "Console logging in production code - Puede exponer información sensible en navegador del usuario" ∧
        f.severity = .low) ∧
      (∃ f ∈ detectVulnerableTechnologies techs html,
        f.name = "Console Logging" ∧ f.severity = .low)) ∧
    (∀ (techs : List Technology) (html : String),
      occursIn (str "debug=true") (str html) = true →
      (∃ f ∈ detectVulnerableTechnologies techs html,
        f.name = "JavaScript Code Pattern" ∧
        f.vulnerability =
          "Debug mode enabled in production - Información de depuración expuesta puede ayudar a atacantes" ∧
        f.severity = .medium) ∧
      (∃ f ∈ detectVulnerableTechnologies techs html,
        f.name = "Debug Configuration" ∧ f.severity = .medium)) := by
  constructor
  · intro techs html h
    constructor
    · have h' : occursIn (str "console.log(") (lowerL (str html)) = true :=
        occursIn_lowerL (by decide) h
      have hc : anySuffix consolePattern.matchAt (lowerL (str html)) = true :=
        anySuffix_of_occursIn matchConsole_at h'
      exact ⟨mkPatternFinding consolePattern (str html),
        pattern_finding_mem (List.Mem.tail _ (List.Mem.tail _ (List.Mem.tail _
          (List.Mem.tail _ (List.Mem.tail _ (List.Mem.tail _ (List.Mem.tail _
            (List.Mem.head _)))))))) hc, rfl, rfl, rfl⟩
    · have hsub : occursIn (str "console.log") (str html) = true := by
        have heq : str "console.log(" = str "console.log" ++ ['('] := by decide
        exact occursIn_prefix_sub (heq ▸ h)
      refine ⟨⟨"Console Logging", "Present",
        "Console logging in production code", .low, [], none⟩, ?_, rfl, rfl⟩
      unfold detectVulnerableTechnologies
      refine List.mem_append.mpr (Or.inr ?_)
      simp [consoleLoggingFindings, hsub]
  · intro techs html h
    constructor
    · have h' : occursIn (str "debug=true") (lowerL (str html)) = true :=
        occursIn_lowerL (by decide) h
      have hc : anySuffix debugPattern.matchAt (lowerL (str html)) = true :=
        anySuffix_of_occursIn matchDebug_at h'
      exact ⟨mkPatternFinding debugPattern (str html),
        pattern_finding_mem (List.Mem.tail _ (List.Mem.tail _ (List.Mem.tail _
          (List.Mem.tail _ (List.Mem.tail _ (List.Mem.tail _ (List.Mem.tail _
            (List.Mem.tail _ (List.Mem.head _))))))))) hc, rfl, rfl, rfl⟩
    · refine ⟨⟨"Debug Configuration", "Enabled",
        "Debug mode enabled in production", .medium, [], none⟩, ?_, rfl, rfl⟩
      unfold detectVulnerableTechnologies
      refine List.mem_append.mpr (Or.inl (List.mem_append.mpr (Or.inr ?_)))
      simp [debugConfigFindings, h]

/-- Witness for C10's amended statement at concrete html inputs. -/
theorem console_and_debug_double_findings_amended_witness :
    ((∃ f ∈ detectVulnerableTechnologies [] "console.log(x)",
        f.name = "JavaScript Code Pattern" ∧
        f.vulnerability =
          "Console logging in production code - Puede exponer información sensible en navegador del usuario" ∧
        f.severity = .low) ∧
      (∃ f ∈ detectVulnerableTechnologies [] "console.log(x)",
        f.name = "Console Logging" ∧ f.severity = .low)) ∧
    ((∃ f ∈ detectVulnerableTechnologies [] "var debug=true;",
        f.name = "JavaScript Code Pattern" ∧
        f.vulnerability =
          "Debug mode enabled in production - Información de depuración expuesta puede ayudar a atacantes" ∧
        f.severity = .medium) ∧
      (∃ f ∈ detectVulnerableTechnologies [] "var debug=true;",
        f.name = "Debug Configuration" ∧ f.severity = .medium)) :=
  ⟨console_and_debug_double_findings_amended.1 [] "console.log(x)" (by decide),
   console_and_debug_double_findings_amended.2 [] "var debug=true;" (by decide)⟩

/-- Claim C3, refuted:  A robots.txt whose wildcard section carries only the
path-specific `Disallow: /admin` is *denied*: the gate tests the whole
lowercased text for the substring `disallow: /`, which any
`/`-prefixed path directive contains, so the claim that path-specific
directives are allowed fails. -/
theorem robots_path_specific_disallow_denies_counterexample :
    validateRobotsTxt (some "User-agent: *\nDisallow: /admin") = false := by
  decide

/-- Claim C3, amended:  The gate fails open (`true`) when robots.txt is
absent or unreachable; it returns `false` whenever a wildcard
`user-agent: *` is present together with *any* `disallow: /` substring
(full-site or path-specific) and no ScrapiiBot-specific agent line; and
it returns `true` whenever the lowercased text contains no `disallow: /`
substring at all. -/
theorem robots_gate_amended :
    validateRobotsTxt none = true ∧
    (∀ t : String,
      occursIn (str "user-agent: *") (lowerL (str t)) = true →
      occursIn (str "disallow: /") (lowerL (str t)) = true →
      occursIn (str "user-agent: scrapiibot/2.0") (lowerL (str t)) = false →
      validateRobotsTxt (some t) = false) ∧
    (∀ t : String,
      occursIn (str "disallow: /") (lowerL (str t)) = false →
      validateRobotsTxt (some t) = true) := by
  refine ⟨rfl, ?_, ?_⟩
  · intro t h1 h2 h3
    simp [validateRobotsTxt, h1, h2, h3]
  · intro t h
    unfold validateRobotsTxt
    cases hspec : occursIn (str "user-agent: scrapiibot/2.0") (lowerL (str t)) with
    | false => simp [hspec, h]
    | true =>
      cases hext : extractUserAgentSection (str t) "ScrapiiBot/2.0" with
      | none => simp [hspec, hext, h]
      | some sec =>
        have hno : occursIn (str "disallow: /") sec = false := by
          cases hocc : occursIn (str "disallow: /") sec with
          | false => rfl
          | true =>
            have horig : occursIn (str "disallow: /") (str t) = true :=
              occursIn_of_extractSection (by decide) (by decide) hext hocc
            have hlow : occursIn (str "disallow: /") (lowerL (str t)) = true := by
              have := occursIn_map lowerChar horig
              rwa [show (str "disallow: /").map lowerChar = str "disallow: /"
                by decide] at this
            simp [h] at hlow
        simp [hspec, hext, hno]

/-- Witness for C3's amended statement at concrete robots.txt bodies. -/
theorem robots_gate_amended_witness :
    validateRobotsTxt (some "User-agent: *\nDisallow: /") = false ∧
    validateRobotsTxt (some "User-agent: *\nAllow: /") = true :=
  ⟨robots_gate_amended.2.1 "User-agent: *\nDisallow: /" (by decide) (by decide)
      (by decide),
   robots_gate_amended.2.2 "User-agent: *\nAllow: /" (by decide)⟩

end Scrapii
